import Mathlib

/-!
Shallow embedding of the SlidesGPT MCP server
(`src/slides_server_node/src/server.ts`): the presentation registry, the
remote-client call shapes, the tool handlers and the dispatcher boundary.

Conventions of the embedding:
* machine timestamps (`Date.getTime()`) are `Int` milliseconds;
* the sources of nondeterminism of the program — `crypto.randomBytes`
  (fresh identifiers), `new Date()` (the clock) and the remote HTTP
  responses — are explicit parameters (`FreshIds`, `now`, oracles);
* a JS value that may be absent is an `Option`; JS string truthiness
  (`!x` for `x : string | null`) is `strFalsy`;
* a thrown JS exception is the `Except.error` channel, caught at the
  dispatcher boundary exactly where the source's `try`/`catch` sits.
-/

namespace SlidesServer

/-- JSON values, the type of `request.params.arguments` and of remote
response bodies. Numbers are integers in this embedding (no claim depends
on float behaviour). -/
inductive Json where
  | null
  | bool (b : Bool)
  | num (n : Int)
  | str (s : String)
  | arr (items : List Json)
  | obj (fields : List (String × Json))

/-- First-match association-list lookup (JS `Map.get` / object field). -/
def alookup {α : Type} : List (String × α) → String → Option α
  | [], _ => none
  | (k, v) :: rest, key => if k = key then some v else alookup rest key

/-- Field access on a JSON object; `none` when absent or not an object. -/
def Json.getField : Json → String → Option Json
  | .obj fields, key => alookup fields key
  | _, _ => none

/-- JS string truthiness test for a `string | null` value:
`!x` holds when `x` is `null` or the empty string. -/
def strFalsy : Option String → Bool
  | none => true
  | some s => s == ""

/-- One presentation context of the in-memory registry
(`type PresentationContext` in the source). -/
structure PresentationContext where
  presentationId : String
  conversationId : String
  userId : String
  slideCount : Nat
  createdAt : Int
  lastUsed : Int
  themeId : Option String
  themeOffered : Bool
  deckId : Option String
deriving Repr, DecidableEq

/-- The registry `presentations : Map<string, PresentationContext>`,
as an insertion-ordered association list with unique keys. -/
def Registry := List (String × PresentationContext)

/-- `presentations.get` — first-match lookup. -/
def lookupCtx (reg : Registry) (key : String) : Option PresentationContext :=
  alookup reg key

/-- `presentations.set` — replace in place when the key exists (JS `Map`
keeps the original insertion position), append otherwise. -/
def setCtx : Registry → String → PresentationContext → Registry
  | [], key, c => [(key, c)]
  | (k, c0) :: rest, key, c =>
      if k = key then (key, c) :: rest else (k, c0) :: setCtx rest key c

/-- Well-formedness of a registry: keys are unique, as in a JS `Map`. -/
def Registry.WF (reg : Registry) : Prop :=
  (reg.map Prod.fst).Nodup

/-- The retention window of the cleanup timer: 24 hours in milliseconds. -/
def ttlMillis : Int := 24 * 60 * 60 * 1000

/-- One run of the hourly cleanup sweep: deletes every entry whose
`lastUsed` is strictly before `now - 24h` (the `setInterval` body). -/
def evictStale (reg : Registry) (now : Int) : Registry :=
  reg.filter (fun kc => !(decide (kc.2.lastUsed < now - ttlMillis)))

/-- The fresh random material one dispatcher invocation may consume:
hex strings standing for `crypto.randomBytes(...).toString("hex")`. -/
structure FreshIds where
  pidHex : String
  convHex : String
  userHex : String
deriving Repr, DecidableEq

/-- `generatePresentationId`: `pres_<hex>`. -/
def generatePresentationId (hex : String) : String :=
  "pres_" ++ hex

/-- The context built in the create branch of `getOrCreatePresentation`. -/
def newContext (now : Int) (fresh : FreshIds) (key : String) : PresentationContext :=
  { presentationId := key
    conversationId := fresh.convHex
    userId := "mcp-user-" ++ fresh.userHex
    slideCount := 0
    createdAt := now
    lastUsed := now
    themeId := none
    themeOffered := false
    deckId := none }

/-- `presentationId || generatePresentationId()`: the key of a new entry is
the caller's token when truthy, a freshly generated id otherwise. -/
def newKey (fresh : FreshIds) : Option String → String
  | some t => if t = "" then generatePresentationId fresh.pidHex else t
  | none => generatePresentationId fresh.pidHex

/-- The create branch of `getOrCreatePresentation`: build a brand-new
context and insert it. Returns the map key together with the context. -/
def createNewPresentation (reg : Registry) (now : Int) (fresh : FreshIds)
    (pid? : Option String) : (String × PresentationContext) × Registry :=
  let key := newKey fresh pid?
  let ctx := newContext now fresh key
  ((key, ctx), setCtx reg key ctx)

/-- `getOrCreatePresentation(presentationId?)`. A truthy token that is a
key of the registry resolves to the stored context after refreshing
`lastUsed`; anything else creates and inserts a new context. The map key
under which the returned context lives is returned alongside it (in the
source the context is a shared mutable reference; later in-place
mutations are modelled as `setCtx` under this key). -/
def getOrCreatePresentation (reg : Registry) (now : Int) (fresh : FreshIds)
    (pid? : Option String) : (String × PresentationContext) × Registry :=
  match pid? with
  | some t =>
      if t = "" then createNewPresentation reg now fresh pid?
      else
        match lookupCtx reg t with
        | some ctx =>
            let ctx' := { ctx with lastUsed := now }
            ((t, ctx'), setCtx reg t ctx')
        | none => createNewPresentation reg now fresh pid?
  | none => createNewPresentation reg now fresh pid?

/-- `[a-zA-Z0-9]` character class of the deck-id regex. -/
def isAlnum (c : Char) : Bool :=
  ('a' ≤ c && c ≤ 'z') || ('A' ≤ c && c ≤ 'Z') || ('0' ≤ c && c ≤ '9')

/-- Scan for the first position where the literal `/view/` is followed by
at least one alphanumeric character; capture the maximal alphanumeric run
(the semantics of `url.match(/\/view\/([a-zA-Z0-9]+)/)`). -/
def extractDeckIdChars : List Char → Option (List Char)
  | [] => none
  | c :: rest =>
      match c :: rest with
      | '/' :: 'v' :: 'i' :: 'e' :: 'w' :: '/' :: tail =>
          if tail.takeWhile isAlnum = [] then extractDeckIdChars rest
          else some (tail.takeWhile isAlnum)
      | _ => extractDeckIdChars rest

/-- `extractDeckIdFromUrl`: the deck id captured from a view URL. -/
def extractDeckIdFromUrl (url : String) : Option String :=
  (extractDeckIdChars url.toList).map (fun cs => String.mk cs)

example : extractDeckIdFromUrl "https://app.slidesgpt.com//view/abc123" = some "abc123" := by
  decide

example : extractDeckIdFromUrl "https://x.y/view//view/zz9" = some "zz9" := by
  decide

example : extractDeckIdFromUrl "https://x.y/nothing" = none := by
  decide

/-! ### Input schemas (`zod`) -/

/-- `BulletPointSchema`. -/
structure BulletPoint where
  point : String
  description : String
  icon : String
deriving Repr, DecidableEq

/-- `SourceSchema`. -/
structure SourceRef where
  title : String
  link : String
deriving Repr, DecidableEq

/-- `SlideSchema` (`force_edit` optional). -/
structure Slide where
  title : String
  subtitle : String
  slidenum : Int
  image_id : String
  body : List BulletPoint
  talktrack : String
  sources : List SourceRef
  force_edit : Option Bool
deriving Repr, DecidableEq

/-- `z.string()`. -/
def zString : Json → Except String String
  | .str s => .ok s
  | _ => .error "Expected string"

/-- `z.number()` (integral in this embedding). -/
def zNumber : Json → Except String Int
  | .num n => .ok n
  | _ => .error "Expected number"

/-- `z.boolean()`. -/
def zBool : Json → Except String Bool
  | .bool b => .ok b
  | _ => .error "Expected boolean"

/-- A required field of a `z.object`: absent (or non-object carrier) is a
parse error. -/
def zField (j : Json) (key : String) (p : Json → Except String α) :
    Except String α :=
  match j.getField key with
  | some v => p v
  | none => .error ("Required: " ++ key)

/-- An `.optional()` field of a `z.object`: absent is `none`, present must
parse. -/
def zOptField (j : Json) (key : String) (p : Json → Except String α) :
    Except String (Option α) :=
  match j.getField key with
  | some v => (p v).map some
  | none => .ok none

/-- `z.array(p)`. -/
def zArray (p : Json → Except String α) : Json → Except String (List α)
  | .arr items => items.mapM p
  | _ => .error "Expected array"

/-- `BulletPointSchema.parse`. -/
def zBulletPoint (j : Json) : Except String BulletPoint := do
  let point ← zField j "point" zString
  let description ← zField j "description" zString
  let icon ← zField j "icon" zString
  return { point := point, description := description, icon := icon }

/-- `SourceSchema.parse`. -/
def zSourceRef (j : Json) : Except String SourceRef := do
  let title ← zField j "title" zString
  let link ← zField j "link" zString
  return { title := title, link := link }

/-- `SlideSchema.parse`. -/
def zSlide (j : Json) : Except String Slide := do
  let title ← zField j "title" zString
  let subtitle ← zField j "subtitle" zString
  let slidenum ← zField j "slidenum" zNumber
  let image_id ← zField j "image_id" zString
  let body ← zField j "body" (zArray zBulletPoint)
  let talktrack ← zField j "talktrack" zString
  let sources ← zField j "sources" (zArray zSourceRef)
  let force_edit ← zOptField j "force_edit" zBool
  return { title := title, subtitle := subtitle, slidenum := slidenum,
           image_id := image_id, body := body, talktrack := talktrack,
           sources := sources, force_edit := force_edit }

/-- The `.transform((val) => (val === "" ? undefined : val))` applied to
the optional `presentation_id` input field. -/
def emptyToNone (s : String) : Option String :=
  if s = "" then none else some s

/-- `slideViewerInputParser.parse`: `presentation_id` (optional string,
empty collapsed to absent) and `slide_data`. -/
def zSlideViewerInput (j : Json) : Except String (Option String × Slide) := do
  let pid ← zOptField j "presentation_id" zString
  let slide ← zField j "slide_data" zSlide
  return (pid.bind emptyToNone, slide)

/-- `slideCarouselInputParser.parse`. -/
def zSlideCarouselInput (j : Json) : Except String (Option String × List Slide) := do
  let pid ← zOptField j "presentation_id" zString
  let slides ← zField j "slides_data" (zArray zSlide)
  return (pid.bind emptyToNone, slides)

/-- `searchInputParser.parse`. -/
def zSearchInput (j : Json) : Except String String :=
  zField j "caption" zString

/-- The 26 valid theme identifiers (`THEME_IDS`). -/
def THEME_IDS : List String :=
  ["copenhagen-light", "copenhagen-dark", "tokyo-light", "tokyo-dark",
   "paris-light", "paris-dark", "berlin-light", "berlin-dark",
   "new-york-light", "new-york-dark", "la-light", "la-dark",
   "zurich-light", "zurich-dark", "shanghai-light", "shanghai-dark",
   "minimal-pure-light", "minimal-pure-dark", "zen-gray-light", "zen-gray-dark",
   "aurora-glow-1", "aurora-glow-2", "aurora-glow-3", "aurora-glow-4",
   "cosmic-pulse-light", "cosmic-pulse-dark"]

/-- `applyThemeInputParser.parse`: `theme_id` must be one of `THEME_IDS`
(`z.enum`). -/
def zApplyThemeInput (j : Json) : Except String (String × String) := do
  let pid ← zField j "presentation_id" zString
  let tid ← zField j "theme_id" zString
  if THEME_IDS.contains tid then
    return (pid, tid)
  else
    .error "Invalid enum value"

/-- `showThemePickerInputParser.parse`. -/
def zShowThemePickerInput (j : Json) : Except String (String × Option String) := do
  let pid ← zField j "presentation_id" zString
  let rec? ← zOptField j "recommended_theme_id" zString
  return (pid, rec?)

/-! ### Remote client (`fetch` call shapes) -/

/-- The payload of a successful `/chat/generate` response after
`GenerateResponseSchema.parse`. -/
structure GenerateData where
  image_url : String
  presentation_view_url : String
deriving Repr, DecidableEq

/-- `GenerateResponse` (the `data` wrapper). -/
structure GenerateResponse where
  data : GenerateData
deriving Repr, DecidableEq

/-- `GenerateResponseSchema.parse`. -/
def zGenerateResponse (j : Json) : Except String GenerateResponse := do
  let d ← zField j "data" (fun dj => do
    let image_url ← zField dj "image_url" zString
    let view_url ← zField dj "presentation_view_url" zString
    return ({ image_url := image_url, presentation_view_url := view_url } : GenerateData))
  return { data := d }

/-- What one remote HTTP exchange looks like to the client code: a
non-2xx status (the `Except.error` side, carrying the status code) or a
2xx response with a JSON body. -/
abbrev RemoteHttp := Except Int Json

/-- The body of `createSlide` up to and including schema validation:
non-ok status throws `Failed to create slide: <status>`; an ok body is
validated by `GenerateResponseSchema.parse` (whose failure also throws). -/
def genParse (remote : RemoteHttp) : Except String GenerateResponse :=
  match remote with
  | .error status => .error ("Failed to create slide: " ++ toString status)
  | .ok body => zGenerateResponse body

/-- `createSlide(slideData, presentationContext)`: on success the
context's `slideCount` is incremented (in-place mutation in the source);
on a thrown error the context is untouched. -/
def createSlide (remote : RemoteHttp) (ctx : PresentationContext) :
    Except String (GenerateResponse × PresentationContext) :=
  match genParse remote with
  | .error e => .error e
  | .ok parsed => .ok (parsed, { ctx with slideCount := ctx.slideCount + 1 })

/-- `searchImages(caption)`: throws `Search failed with status <n>` on a
non-ok status; otherwise `Array.isArray(data) ? data : []`. -/
def searchImages (remote : RemoteHttp) : Except String (List Json) :=
  match remote with
  | .error status => .error ("Search failed with status " ++ toString status)
  | .ok body =>
      match body with
      | .arr items => .ok items
      | _ => .ok []

/-- `theme` field of an apply-theme response. -/
structure ThemeInfo where
  id : String
  name : String
deriving Repr, DecidableEq

/-- One re-rendered slide of an apply-theme response. -/
structure SlideRender where
  slideNum : Int
  image_url : String
deriving Repr, DecidableEq

/-- `ApplyThemeResponse` — the body is cast, not validated, in the
source (`as ApplyThemeResponse`), so it is modelled as already typed. -/
structure ApplyThemeResponse where
  success : Bool
  theme : ThemeInfo
  slides : List SlideRender
  presentation_view_url : String
  message : String
deriving Repr, DecidableEq

/-- `applyTheme(deckId, themeId, presentationContext)`: throws
`Failed to apply theme: <status>` on a non-ok status; on success sets
`context.themeId` to the requested theme (in-place mutation). -/
def applyTheme (remote : Except Int ApplyThemeResponse) (themeId : String)
    (ctx : PresentationContext) :
    Except String (ApplyThemeResponse × PresentationContext) :=
  match remote with
  | .error status => .error ("Failed to apply theme: " ++ toString status)
  | .ok resp => .ok (resp, { ctx with themeId := some themeId })

/-! ### Theme catalog -/

/-- The name/category/description record of `THEME_METADATA`. -/
structure ThemeMeta where
  name : String
  category : String
  description : String
deriving Repr, DecidableEq

/-- `THEME_METADATA` as a function on theme ids (total record over
`THEME_IDS` in the source; other strings never reach it). -/
def THEME_METADATA : String → ThemeMeta
  | "copenhagen-light" => ⟨"Copenhagen", "urban", "Soft Nordic Minimalism"⟩
  | "copenhagen-dark" => ⟨"Copenhagen Dark", "urban", "Soft Nordic Minimalism"⟩
  | "tokyo-light" => ⟨"Tokyo", "urban", "Neon Brutalism"⟩
  | "tokyo-dark" => ⟨"Tokyo Dark", "urban", "Neon Brutalism"⟩
  | "paris-light" => ⟨"Paris", "urban", "Modern Heritage"⟩
  | "paris-dark" => ⟨"Paris Dark", "urban", "Modern Heritage"⟩
  | "berlin-light" => ⟨"Berlin", "urban", "Industrial Monochrome"⟩
  | "berlin-dark" => ⟨"Berlin Dark", "urban", "Industrial Monochrome"⟩
  | "new-york-light" => ⟨"New York", "urban", "Vintage Yellow Cab"⟩
  | "new-york-dark" => ⟨"New York Dark", "urban", "Vintage Yellow Cab"⟩
  | "la-light" => ⟨"LA", "urban", "Sunset Pop"⟩
  | "la-dark" => ⟨"LA Dark", "urban", "Sunset Pop"⟩
  | "zurich-light" => ⟨"Zürich", "urban", "Modern Swiss Utility"⟩
  | "zurich-dark" => ⟨"Zürich Dark", "urban", "Modern Swiss Utility"⟩
  | "shanghai-light" => ⟨"Shanghai", "urban", "Techno-Global Commerce"⟩
  | "shanghai-dark" => ⟨"Shanghai Dark", "urban", "Techno-Global Commerce"⟩
  | "minimal-pure-light" => ⟨"Minimal Pure", "minimal", "Ultra Clean"⟩
  | "minimal-pure-dark" => ⟨"Minimal Pure Dark", "minimal", "Ultra Clean"⟩
  | "zen-gray-light" => ⟨"Zen Gray", "minimal", "Calm Neutral Tones"⟩
  | "zen-gray-dark" => ⟨"Zen Gray Dark", "minimal", "Calm Neutral Tones"⟩
  | "aurora-glow-1" => ⟨"Aurora Glow", "gradient", "Soft Pastel Gradient"⟩
  | "aurora-glow-2" => ⟨"Aurora Glow Pink", "gradient", "Soft Pastel Gradient"⟩
  | "aurora-glow-3" => ⟨"Aurora Glow Blue", "gradient", "Soft Pastel Gradient"⟩
  | "aurora-glow-4" => ⟨"Aurora Glow Teal", "gradient", "Soft Pastel Gradient"⟩
  | "cosmic-pulse-light" => ⟨"Cosmic Pulse", "gradient", "High-Energy Neon Gradient"⟩
  | "cosmic-pulse-dark" => ⟨"Cosmic Pulse Dark", "gradient", "High-Energy Neon Gradient"⟩
  | _ => ⟨"", "", ""⟩

/-- JSON encoding of a `string | null` value. -/
def jsonOfOptStr : Option String → Json
  | none => Json.null
  | some s => Json.str s

/-- One entry of the `all_themes` list of `generateThemeOptions`. -/
def themeOptionEntry (id : String) : Json :=
  .obj [("id", .str id), ("name", .str (THEME_METADATA id).name),
        ("category", .str (THEME_METADATA id).category),
        ("description", .str (THEME_METADATA id).description)]

/-- `generateThemeOptions(recommendedThemeId?)`: the theme-options payload
attached to first-slide responses and to the theme picker. An
`undefined` recommendation leaves the key out (its JSON serialization). -/
def generateThemeOptions (recommended : Option String) : Json :=
  let allThemes := THEME_IDS.map themeOptionEntry
  let catThemes := fun (c : String) =>
    (THEME_IDS.filter (fun id => (THEME_METADATA id).category == c)).map themeOptionEntry
  .obj ([("message", .str "Your presentation has been created! Would you like to apply a custom theme? We have 22 themes across 3 categories."),
         ("categories", .obj [("urban", .arr (catThemes "urban")),
                              ("minimal", .arr (catThemes "minimal")),
                              ("gradient", .arr (catThemes "gradient"))]),
         ("all_themes", .arr allThemes),
         ("total_themes", .num 22)]
        ++ (match recommended with
            | some r => [("recommended_theme_id", Json.str r)]
            | none => [])
        ++ [("instructions", .str "To apply a theme, say \"Use [theme name]\" (e.g., \"Use Tokyo Dark\") or use the apply_theme tool with the theme_id.")])

/-! ### Tool handlers and dispatcher -/

/-- The structured tool response built by a handler: summary text,
optional `structuredContent` payload, and the `isError` flag (absent in
the source on success responses, modelled as `false`). -/
structure ToolResponse where
  text : String
  structuredContent : Option Json := none
  isError : Bool := false

/-- One outbound HTTP request of the remote client, as recorded in the
call trace of a handler run. -/
inductive RemoteCall where
  | generate (slide : Slide) (userId conversationId : String)
  | search (caption : String)
  | theme (deckId themeId : String) (userId conversationId : String)

/-- The deck-id extraction block that follows each successful generation:
`if (!presentation.deckId && result.data.presentation_view_url) ...`. -/
def deckExtractStep (ctx : PresentationContext) (result : GenerateResponse) :
    PresentationContext :=
  if strFalsy ctx.deckId && result.data.presentation_view_url != "" then
    match extractDeckIdFromUrl result.data.presentation_view_url with
    | some d => { ctx with deckId := some d }
    | none => ctx
  else ctx

/-- The theme banner appended to first-slide response texts. -/
def themeMessageText : String :=
  "\n\n🎨 **Theme Options Available!**\nWould you like to customize your presentation\x27s look? We have 22 themes across 3 categories (Urban, Minimal, Gradient). Say \"show themes\" or \"use [theme name]\" to apply a theme."

mutual

/-- JS template-literal conversion of a JSON value to text. -/
def jsShow : Json → String
  | .null => "null"
  | .bool b => if b then "true" else "false"
  | .num n => toString n
  | .str s => s
  | .arr items => String.intercalate "," (jsShowList items)
  | .obj _ => "[object Object]"

/-- `jsShow` mapped over the elements of a JSON array. -/
def jsShowList : List Json → List String
  | [] => []
  | j :: rest => jsShow j :: jsShowList rest

end

/-- Interpolation of `img.<key>` where `img` is an untyped JSON value:
a missing field prints as `undefined`. -/
def jsField (j : Json) (key : String) : String :=
  match j.getField key with
  | some v => jsShow v
  | none => "undefined"

/-- The `create_slide` handler body (inside the dispatcher's `try`).
Returns the response-or-thrown-error, the registry after whatever
mutations happened before a throw, and the trace of remote calls. -/
def handleCreateSlide (reg : Registry) (now : Int) (fresh : FreshIds)
    (args : Json) (remote : RemoteHttp) :
    Except String ToolResponse × Registry × List RemoteCall :=
  match zSlideViewerInput args with
  | .error e => (.error e, reg, [])
  | .ok (pid?, slideData) =>
      let r1 := getOrCreatePresentation reg now fresh pid?
      let key := r1.1.1
      let presentation := r1.1.2
      let reg1 := r1.2
      let call := RemoteCall.generate slideData presentation.userId presentation.conversationId
      match createSlide remote presentation with
      | .error e => (.error e, reg1, [call])
      | .ok (result, ctx1) =>
          let ctx2 := deckExtractStep ctx1 result
          let isFirstSlide :=
            ctx2.slideCount == 1 && !ctx2.themeOffered && strFalsy ctx2.themeId
          let ctx3 := if isFirstSlide then { ctx2 with themeOffered := true } else ctx2
          let themeMessage := if isFirstSlide then themeMessageText else ""
          let reg2 := setCtx reg1 key ctx3
          let resp : ToolResponse :=
            { text := "✅ Slide " ++ toString slideData.slidenum
                ++ " created successfully!\n\nTitle: \"" ++ slideData.title
                ++ "\"\nSubtitle: " ++ slideData.subtitle
                ++ "\n\n🔑 IMPORTANT - Save this Presentation ID:\n" ++ ctx3.presentationId
                ++ "\n\nFor any additional slides in THIS conversation, you MUST include:\n\"presentation_id\": \""
                ++ ctx3.presentationId ++ "\"\nin the tool parameters." ++ themeMessage
              structuredContent := some (Json.obj
                ([("presentation_id", .str ctx3.presentationId),
                  ("deck_id", jsonOfOptStr ctx3.deckId),
                  ("theme_id", jsonOfOptStr ctx3.themeId),
                  ("slide", Json.obj
                    [("title", .str slideData.title),
                     ("subtitle", .str slideData.subtitle),
                     ("slidenum", .num slideData.slidenum),
                     ("image_url", .str result.data.image_url),
                     ("presentation_view_url", .str result.data.presentation_view_url)])]
                 ++ (if isFirstSlide then [("theme_options", generateThemeOptions none)] else [])))
              isError := false }
          (.ok resp, reg2, [call])

/-- The sequential generation loop of `create_slide_carousel`
(`for (const slideData of args.slides_data) ...`): the `i`-th issued call
consumes `oracle i`; an error aborts the loop, keeping the context
mutations of the completed iterations. -/
def carouselLoop (oracle : Nat → RemoteHttp) (slides : List Slide)
    (ctx : PresentationContext) :
    Except String (List GenerateResponse) × PresentationContext × List RemoteCall :=
  match slides with
  | [] => (.ok [], ctx, [])
  | slideData :: rest =>
      let call := RemoteCall.generate slideData ctx.userId ctx.conversationId
      match createSlide (oracle 0) ctx with
      | .error e => (.error e, ctx, [call])
      | .ok (result, ctx1) =>
          let ctx2 := deckExtractStep ctx1 result
          match carouselLoop (fun i => oracle (i + 1)) rest ctx2 with
          | (.error e, ctxF, calls) => (.error e, ctxF, call :: calls)
          | (.ok results, ctxF, calls) => (.ok (result :: results), ctxF, call :: calls)

/-- One element of the aggregated `slides` array of the carousel response
(`args.slides_data.map((slideData, index) => ...)`). -/
def carouselSlideJson (s : Slide) (r : GenerateResponse) : Json :=
  .obj [("title", .str s.title),
        ("subtitle", .str s.subtitle),
        ("slidenum", .num s.slidenum),
        ("image_url", .str r.data.image_url),
        ("presentation_view_url", .str r.data.presentation_view_url)]

/-- The `create_slide_carousel` handler body. -/
def handleCreateSlideCarousel (reg : Registry) (now : Int) (fresh : FreshIds)
    (args : Json) (oracle : Nat → RemoteHttp) :
    Except String ToolResponse × Registry × List RemoteCall :=
  match zSlideCarouselInput args with
  | .error e => (.error e, reg, [])
  | .ok (pid?, slidesData) =>
      let r1 := getOrCreatePresentation reg now fresh pid?
      let key := r1.1.1
      let presentation := r1.1.2
      let reg1 := r1.2
      match carouselLoop oracle slidesData presentation with
      | (.error e, ctxF, calls) => (.error e, setCtx reg1 key ctxF, calls)
      | (.ok results, ctxF, calls) =>
          let slides := List.zipWith carouselSlideJson slidesData results
          let isFirstBatch := !ctxF.themeOffered && strFalsy ctxF.themeId
          let ctx3 := if isFirstBatch then { ctxF with themeOffered := true } else ctxF
          let themeMessage := if isFirstBatch then themeMessageText else ""
          let reg2 := setCtx reg1 key ctx3
          let resp : ToolResponse :=
            { text := "✅ Created " ++ toString slides.length
                ++ " slides successfully!\n\n"
                ++ String.intercalate "\n"
                    (slidesData.map (fun s =>
                      "Slide " ++ toString s.slidenum ++ ": \"" ++ s.title ++ "\""))
                ++ "\n\n🔑 IMPORTANT - Save this Presentation ID:\n" ++ ctx3.presentationId
                ++ "\n\nFor any additional slides in THIS conversation, you MUST include:\n\"presentation_id\": \""
                ++ ctx3.presentationId ++ "\"\nin the tool parameters." ++ themeMessage
              structuredContent := some (Json.obj
                ([("presentation_id", .str ctx3.presentationId),
                  ("slides", .arr slides)]
                 ++ (if isFirstBatch then [("theme_options", generateThemeOptions none)] else [])))
              isError := false }
          (.ok resp, reg2, calls)

/-- The `search_images` handler body (stateless — no registry access). -/
def handleSearchImages (args : Json) (remote : RemoteHttp) :
    Except String ToolResponse × List RemoteCall :=
  match zSearchInput args with
  | .error e => (.error e, [])
  | .ok caption =>
      let call := RemoteCall.search caption
      match searchImages remote with
      | .error e => (.error e, [call])
      | .ok images =>
          if images.length == 0 then
            (.ok { text := "No images found for \"" ++ caption
                     ++ "\". Try different search terms or proceed without an image." },
             [call])
          else
            let topImages := images.take 3
            let imageList := String.intercalate "\n\n"
              (topImages.enum.map (fun p =>
                toString (p.1 + 1) ++ ". " ++ jsField p.2 "image_id"
                  ++ "\n   Caption: \"" ++ jsField p.2 "caption"
                  ++ "\"\n   Preview: " ++ jsField p.2 "url"))
            (.ok { text := "Found " ++ toString images.length ++ " images for \""
                     ++ caption ++ "\":\n\n" ++ imageList
                     ++ "\n\nUse the image_id in your slide creation." },
             [call])

/-- JSON encoding of a re-rendered slide of an apply-theme response. -/
def slideRenderJson (r : SlideRender) : Json :=
  .obj [("slideNum", .num r.slideNum), ("image_url", .str r.image_url)]

/-- The `apply_theme` handler body: lookup-only (no context creation),
`PresentationNotFound` / `DeckNotReady` as returned flagged errors. -/
def handleApplyTheme (reg : Registry) (args : Json)
    (remote : Except Int ApplyThemeResponse) :
    Except String ToolResponse × Registry × List RemoteCall :=
  match zApplyThemeInput args with
  | .error e => (.error e, reg, [])
  | .ok (pid, tid) =>
      match lookupCtx reg pid with
      | none =>
          (.ok { text := "❌ Presentation not found: " ++ pid
                   ++ ". Make sure you\x27re using the correct presentation_id from slide creation."
                 isError := true },
           reg, [])
      | some presentation =>
          if strFalsy presentation.deckId then
            (.ok { text := "❌ No deck ID available for presentation: " ++ pid
                     ++ ". Please create at least one slide first."
                   isError := true },
             reg, [])
          else
            let dk := presentation.deckId.getD ""
            let call := RemoteCall.theme dk tid presentation.userId presentation.conversationId
            match applyTheme remote tid presentation with
            | .error e => (.error e, reg, [call])
            | .ok (result, ctx1) =>
                let reg2 := setCtx reg pid ctx1
                let themeMeta := THEME_METADATA tid
                let resp : ToolResponse :=
                  { text := "✅ Theme \"" ++ themeMeta.name ++ "\" (" ++ themeMeta.description
                      ++ ") has been applied to your presentation!\n\n"
                      ++ toString result.slides.length
                      ++ " slide(s) have been re-rendered with the new theme.\n\nView your presentation: "
                      ++ result.presentation_view_url
                    structuredContent := some (Json.obj
                      [("success", .bool true),
                       ("theme", Json.obj
                         [("id", .str tid),
                          ("name", .str themeMeta.name),
                          ("category", .str themeMeta.category),
                          ("description", .str themeMeta.description)]),
                       ("slides", .arr (result.slides.map slideRenderJson)),
                       ("presentation_view_url", .str result.presentation_view_url)])
                    isError := false }
                (.ok resp, reg2, [call])

/-- Fields of a JSON object (for the `...themeOptions` spread). -/
def jsonObjFields : Json → List (String × Json)
  | .obj fs => fs
  | _ => []

/-- The `show_theme_picker` handler body: read-only; a missing context
tolerated by a `null` deck reference (`presentation?.deckId || null`). -/
def handleShowThemePicker (reg : Registry) (args : Json) :
    Except String ToolResponse :=
  match zShowThemePickerInput args with
  | .error e => .error e
  | .ok (pid, rec?) =>
      let deckId : Option String :=
        match lookupCtx reg pid with
        | some p => if strFalsy p.deckId then none else p.deckId
        | none => none
      let themeOptions := generateThemeOptions rec?
      .ok
        { text := "🎨 Choose a theme for your presentation!\n\nWe have 22 themes across 3 categories:\n• Urban (16 themes): City-inspired, bold, modern\n• Minimal (4 themes): Clean, simple, content-focused\n• Gradient (6 themes): Vibrant, creative, eye-catching\n\nTo apply a theme, say \"Use [theme name]\" (e.g., \"Use Tokyo Dark\") or use the apply_theme tool with the theme_id."
          structuredContent := some (Json.obj
            (("deck_id", jsonOfOptStr deckId) :: jsonObjFields themeOptions)) }

/-- The environment of one dispatcher invocation: the clock, the random
material, and oracles standing for the remote HTTP exchanges it may
perform. -/
structure DispatchEnv where
  now : Int
  fresh : FreshIds
  genOracle : Nat → RemoteHttp
  searchOracle : RemoteHttp
  themeOracle : Except Int ApplyThemeResponse

/-- The body of the `try` block of the `CallToolRequestSchema` handler:
tool dispatch by name, `Unknown tool` for anything else. A thrown
exception is the `Except.error` side; registry mutations already applied
when the throw happens are kept, as in the source. -/
def dispatchInner (reg : Registry) (env : DispatchEnv) (toolName : String)
    (rawArgs : Option Json) :
    Except String ToolResponse × Registry × List RemoteCall :=
  let args := rawArgs.getD (Json.obj [])
  if toolName = "create_slide" then
    handleCreateSlide reg env.now env.fresh args (env.genOracle 0)
  else if toolName = "create_slide_carousel" then
    handleCreateSlideCarousel reg env.now env.fresh args env.genOracle
  else if toolName = "search_images" then
    match handleSearchImages args env.searchOracle with
    | (r, calls) => (r, reg, calls)
  else if toolName = "apply_theme" then
    handleApplyTheme reg args env.themeOracle
  else if toolName = "show_theme_picker" then
    (handleShowThemePicker reg args, reg, [])
  else
    (.error ("Unknown tool: " ++ toolName), reg, [])

/-- The `catch` conversion of the dispatcher: any thrown error becomes a
normal flagged response with a human-readable message. -/
def errorResponse (e : String) : ToolResponse :=
  { text := "❌ Error: " ++ e, isError := true }

/-- The complete `CallToolRequestSchema` handler: `try` body plus the
`catch` boundary. Always returns a structured response. -/
def handleToolCall (reg : Registry) (env : DispatchEnv) (toolName : String)
    (rawArgs : Option Json) : ToolResponse × Registry × List RemoteCall :=
  match dispatchInner reg env toolName rawArgs with
  | (.ok r, reg', calls) => (r, reg', calls)
  | (.error e, reg', calls) => (errorResponse e, reg', calls)

/-! ### Derived notions used by the statements -/

/-- The deck id one generation response can contribute: the extraction
guarded by the truthiness of the view URL. -/
def stepDeck (r : GenerateResponse) : Option String :=
  if r.data.presentation_view_url != "" then
    extractDeckIdFromUrl r.data.presentation_view_url
  else none

/-- The deck-id field after one extraction block, as a function of the
previous field value. -/
def stepDeckOpt (od : Option String) (r : GenerateResponse) : Option String :=
  if strFalsy od then
    match stepDeck r with
    | some d => some d
    | none => od
  else od

/-- The first deck id extractable from a run of generation responses. -/
def firstDeckId : List GenerateResponse → Option String
  | [] => none
  | r :: rest =>
      match stepDeck r with
      | some d => some d
      | none => firstDeckId rest

/-- The deck-id field after a run of extraction blocks. -/
def foldDeck (od : Option String) (results : List GenerateResponse) : Option String :=
  if strFalsy od then
    match firstDeckId results with
    | some d => some d
    | none => od
  else od

/-- The remote oracle delivers, for each of the first `results.length`
generation calls, an HTTP exchange that parses to the corresponding
result. -/
def OkFor (oracle : Nat → RemoteHttp) (results : List GenerateResponse) : Prop :=
  ∀ i (h : i < results.length), genParse (oracle i) = .ok (results.get ⟨i, h⟩)

/-- Whether a response carries the theme-options payload. -/
def hasThemeOptions (r : ToolResponse) : Bool :=
  match r.structuredContent with
  | some j => (j.getField "theme_options").isSome
  | none => false

/-- One slide-creating tool invocation of a run: the dispatcher
environment of that invocation plus its raw arguments. -/
inductive SlideOp where
  | single (env : DispatchEnv) (rawArgs : Option Json)
  | batch (env : DispatchEnv) (rawArgs : Option Json)

/-- Dispatch one slide-creating invocation. -/
def runOp (reg : Registry) : SlideOp → ToolResponse × Registry × List RemoteCall
  | .single env a => handleToolCall reg env "create_slide" a
  | .batch env a => handleToolCall reg env "create_slide_carousel" a

/-- Dispatch a sequence of slide-creating invocations one at a time,
threading the registry, and collect the responses. -/
def runOps (reg : Registry) : List SlideOp → List ToolResponse
  | [] => []
  | op :: rest =>
      let r := runOp reg op
      r.1 :: runOps r.2.1 rest

/-- The number of responses of a run that carry a theme-options payload. -/
def countThemeOffers (rs : List ToolResponse) : Nat :=
  (rs.filter hasThemeOptions).length

/-- The invocation's arguments parse successfully and name `pid` as the
continuity token. -/
def opTargets (pid : String) : SlideOp → Prop
  | .single _ a =>
      ∃ s, zSlideViewerInput (a.getD (Json.obj [])) = .ok (some pid, s)
  | .batch _ a =>
      ∃ s, zSlideCarouselInput (a.getD (Json.obj [])) = .ok (some pid, s)

/-! ### Registry lemmas -/

theorem lookupCtx_setCtx (reg : Registry) (k : String) (c : PresentationContext)
    (k' : String) :
    lookupCtx (setCtx reg k c) k' = if k' = k then some c else lookupCtx reg k' := by
  induction reg with
  | nil =>
      by_cases h : k = k'
      · subst h; simp [setCtx, lookupCtx, alookup]
      · simp [setCtx, lookupCtx, alookup, h, Ne.symm h]
  | cons hd tl ih =>
      obtain ⟨k0, c0⟩ := hd
      by_cases h0 : k0 = k
      · subst h0
        by_cases h : k0 = k'
        · subst h; simp [setCtx, lookupCtx, alookup]
        · simp [setCtx, lookupCtx, alookup, h, Ne.symm h]
      · by_cases h1 : k0 = k'
        · subst h1
          simp [setCtx, lookupCtx, alookup, h0, Ne.symm h0]
        · simp only [setCtx, if_neg h0, lookupCtx, alookup, if_neg h1]
          exact ih

theorem mem_keys_of_lookupCtx {reg : Registry} {k : String}
    {c : PresentationContext} (h : lookupCtx reg k = some c) :
    k ∈ reg.map Prod.fst := by
  induction reg with
  | nil => simp [lookupCtx, alookup] at h
  | cons hd tl ih =>
      obtain ⟨k0, c0⟩ := hd
      simp only [lookupCtx, alookup] at h
      by_cases h0 : k0 = k
      · simp [h0]
      · simp only [if_neg h0] at h
        simp [ih h]

theorem setCtx_keys_of_mem {reg : Registry} {k : String}
    (c : PresentationContext) (h : k ∈ reg.map Prod.fst) :
    (setCtx reg k c).map Prod.fst = reg.map Prod.fst := by
  induction reg with
  | nil => simp at h
  | cons hd tl ih =>
      obtain ⟨k0, c0⟩ := hd
      simp only [setCtx]
      by_cases h0 : k0 = k
      · subst h0; simp
      · simp only [if_neg h0, List.map_cons]
        simp only [List.map_cons, List.mem_cons] at h
        rcases h with h | h
        · exact absurd h.symm h0
        · rw [ih h]

theorem alookup_append {α : Type} (l1 l2 : List (String × α)) (k : String) :
    alookup (l1 ++ l2) k =
      match alookup l1 k with
      | some v => some v
      | none => alookup l2 k := by
  induction l1 with
  | nil => simp [alookup]
  | cons hd tl ih =>
      obtain ⟨k0, v0⟩ := hd
      by_cases h0 : k0 = k
      · simp [alookup, h0]
      · simp [alookup, h0, ih]

/-! ### Deck-id extraction lemmas -/

theorem extractDeckIdChars_ne_nil {cs : List Char} {run : List Char}
    (h : extractDeckIdChars cs = some run) : run ≠ [] := by
  induction cs with
  | nil => simp [extractDeckIdChars] at h
  | cons c rest ih =>
      rw [extractDeckIdChars] at h
      split at h
      · split at h
        · exact ih h
        · next hne =>
            cases h
            exact hne
      · exact ih h

theorem extractDeckIdFromUrl_ne_empty {url : String} {d : String}
    (h : extractDeckIdFromUrl url = some d) : d ≠ "" := by
  unfold extractDeckIdFromUrl at h
  cases hex : extractDeckIdChars url.toList with
  | none => rw [hex] at h; simp at h
  | some run =>
      rw [hex] at h
      simp only [Option.map_some'] at h
      have hne : run ≠ [] := extractDeckIdChars_ne_nil hex
      cases h
      intro hcon
      apply hne
      have : (String.mk run).data = ("" : String).data := by rw [hcon]
      simpa using this

theorem stepDeck_ne_empty {r : GenerateResponse} {d : String}
    (h : stepDeck r = some d) : d ≠ "" := by
  unfold stepDeck at h
  split at h
  · exact extractDeckIdFromUrl_ne_empty h
  · simp at h

theorem deckExtractStep_eq (ctx : PresentationContext) (r : GenerateResponse) :
    deckExtractStep ctx r = { ctx with deckId := stepDeckOpt ctx.deckId r } := by
  cases hf : strFalsy ctx.deckId with
  | false =>
      have h1 : stepDeckOpt ctx.deckId r = ctx.deckId := by simp [stepDeckOpt, hf]
      rw [h1]
      show deckExtractStep ctx r = ctx
      simp [deckExtractStep, hf]
  | true =>
      cases hu : (r.data.presentation_view_url != "") with
      | false =>
          have hs : stepDeck r = none := by simp [stepDeck, hu]
          have h1 : stepDeckOpt ctx.deckId r = ctx.deckId := by
            simp [stepDeckOpt, hf, hs]
          rw [h1]
          show deckExtractStep ctx r = ctx
          simp [deckExtractStep, hf, hu]
      | true =>
          have hs : stepDeck r = extractDeckIdFromUrl r.data.presentation_view_url := by
            simp [stepDeck, hu]
          cases hext : extractDeckIdFromUrl r.data.presentation_view_url with
          | none =>
              have h1 : stepDeckOpt ctx.deckId r = ctx.deckId := by
                simp [stepDeckOpt, hf, hs, hext]
              rw [h1]
              show deckExtractStep ctx r = ctx
              simp [deckExtractStep, hf, hu, hext]
          | some d =>
              have h1 : stepDeckOpt ctx.deckId r = some d := by
                simp [stepDeckOpt, hf, hs, hext]
              rw [h1]
              simp [deckExtractStep, hf, hu, hext]

theorem foldDeck_nil (od : Option String) : foldDeck od [] = od := by
  unfold foldDeck firstDeckId
  split <;> rfl

theorem strFalsy_some_of_ne {d : String} (hd : d ≠ "") :
    strFalsy (some d) = false := by
  simp only [strFalsy, beq_eq_false_iff_ne, ne_eq]
  exact hd

theorem foldDeck_cons (od : Option String) (r : GenerateResponse)
    (rs : List GenerateResponse) :
    foldDeck od (r :: rs) = foldDeck (stepDeckOpt od r) rs := by
  cases hf : strFalsy od with
  | false => simp [foldDeck, stepDeckOpt, hf]
  | true =>
      cases hstep : stepDeck r with
      | some d =>
          have h3 : strFalsy (some d) = false :=
            strFalsy_some_of_ne (stepDeck_ne_empty hstep)
          have h1 : stepDeckOpt od r = some d := by
            simp [stepDeckOpt, hf, hstep]
          have h2 : firstDeckId (r :: rs) = some d := by
            simp [firstDeckId, hstep]
          rw [h1]
          simp [foldDeck, hf, h2, h3]
      | none =>
          have h1 : stepDeckOpt od r = od := by
            simp [stepDeckOpt, hf, hstep]
          have h2 : firstDeckId (r :: rs) = firstDeckId rs := by
            simp [firstDeckId, hstep]
          rw [h1]
          simp [foldDeck, hf, h2]

theorem stepDeckOpt_of_some {od : Option String} {d : String}
    (hd : d ≠ "") (h : od = some d) (r : GenerateResponse) :
    stepDeckOpt od r = some d := by
  subst h
  simp [stepDeckOpt, strFalsy_some_of_ne hd]

/-! ### `getOrCreatePresentation` case lemmas -/

theorem getOrCreate_known {reg : Registry} (now : Int) (fresh : FreshIds)
    {t : String} {ctx : PresentationContext}
    (ht : t ≠ "") (h : lookupCtx reg t = some ctx) :
    getOrCreatePresentation reg now fresh (some t) =
      ((t, { ctx with lastUsed := now }), setCtx reg t { ctx with lastUsed := now }) := by
  simp only [getOrCreatePresentation]
  rw [if_neg ht, h]

theorem getOrCreate_unknown {reg : Registry} (now : Int) (fresh : FreshIds)
    {t : String} (ht : t ≠ "") (h : lookupCtx reg t = none) :
    getOrCreatePresentation reg now fresh (some t) =
      ((t, newContext now fresh t), setCtx reg t (newContext now fresh t)) := by
  simp only [getOrCreatePresentation]
  rw [if_neg ht, h]
  simp [createNewPresentation, newKey, ht]

theorem getOrCreate_empty (reg : Registry) (now : Int) (fresh : FreshIds)
    {pid? : Option String} (h : pid? = none ∨ pid? = some "") :
    getOrCreatePresentation reg now fresh pid? =
      ((generatePresentationId fresh.pidHex,
        newContext now fresh (generatePresentationId fresh.pidHex)),
       setCtx reg (generatePresentationId fresh.pidHex)
         (newContext now fresh (generatePresentationId fresh.pidHex))) := by
  rcases h with h | h <;> subst h <;>
    simp [getOrCreatePresentation, createNewPresentation, newKey]

/-! ### `createSlide` and carousel-loop characterizations -/

theorem createSlide_inv {remote : RemoteHttp} {ctx : PresentationContext}
    {p : GenerateResponse × PresentationContext}
    (h : createSlide remote ctx = .ok p) :
    genParse remote = .ok p.1 ∧ p.2 = { ctx with slideCount := ctx.slideCount + 1 } := by
  unfold createSlide at h
  cases hg : genParse remote with
  | error e => rw [hg] at h; exact absurd h (by simp)
  | ok parsed =>
      rw [hg] at h
      have hp : p = (parsed, { ctx with slideCount := ctx.slideCount + 1 }) := by
        injection h with h1
        exact h1.symm
      subst hp
      exact ⟨rfl, rfl⟩

theorem carouselLoop_ok (slides : List Slide) :
    ∀ (oracle : Nat → RemoteHttp) (ctx : PresentationContext)
      (results : List GenerateResponse),
      results.length = slides.length →
      OkFor oracle results →
      carouselLoop oracle slides ctx =
        (.ok results,
         { ctx with slideCount := ctx.slideCount + slides.length,
                    deckId := foldDeck ctx.deckId results },
         slides.map (fun s => RemoteCall.generate s ctx.userId ctx.conversationId)) := by
  induction slides with
  | nil =>
      intro oracle ctx results hlen hok
      have hnil : results = [] := List.eq_nil_of_length_eq_zero (by simpa using hlen)
      subst hnil
      rw [foldDeck_nil]
      simp [carouselLoop]
  | cons s rest ih =>
      intro oracle ctx results hlen hok
      cases results with
      | nil => simp at hlen
      | cons r rs =>
          have h0 : genParse (oracle 0) = .ok r := by
            have := hok 0 (by simp)
            simpa using this
          have hcs : createSlide (oracle 0) ctx =
              .ok (r, { ctx with slideCount := ctx.slideCount + 1 }) := by
            simp [createSlide, h0]
          have hok' : OkFor (fun i => oracle (i + 1)) rs := by
            intro i hi
            have := hok (i + 1) (by simpa using Nat.succ_lt_succ hi)
            simpa using this
          have hlen' : rs.length = rest.length := by simpa using hlen
          simp only [carouselLoop]
          rw [hcs]
          simp only []
          rw [deckExtractStep_eq]
          rw [ih (fun i => oracle (i + 1)) _ rs hlen' hok']
          simp only []
          rw [foldDeck_cons]
          have harith : ctx.slideCount + 1 + rest.length = ctx.slideCount + (rest.length + 1) := by
            omega
          simp [harith]

theorem carouselLoop_err (okResults : List GenerateResponse) :
    ∀ (slides : List Slide) (oracle : Nat → RemoteHttp)
      (ctx : PresentationContext) (e : String),
      okResults.length < slides.length →
      OkFor oracle okResults →
      genParse (oracle okResults.length) = .error e →
      carouselLoop oracle slides ctx =
        (.error e,
         { ctx with slideCount := ctx.slideCount + okResults.length,
                    deckId := foldDeck ctx.deckId okResults },
         (slides.take (okResults.length + 1)).map
           (fun s => RemoteCall.generate s ctx.userId ctx.conversationId)) := by
  induction okResults with
  | nil =>
      intro slides oracle ctx e hlt hok herr
      cases slides with
      | nil => simp at hlt
      | cons s rest =>
          have hcs : createSlide (oracle 0) ctx = .error e := by
            simp only [List.length_nil] at herr
            simp [createSlide, herr]
          rw [foldDeck_nil]
          simp only [carouselLoop]
          rw [hcs]
          simp
  | cons r rs ih =>
      intro slides oracle ctx e hlt hok herr
      cases slides with
      | nil => simp at hlt
      | cons s rest =>
          have h0 : genParse (oracle 0) = .ok r := by
            have := hok 0 (by simp)
            simpa using this
          have hcs : createSlide (oracle 0) ctx =
              .ok (r, { ctx with slideCount := ctx.slideCount + 1 }) := by
            simp [createSlide, h0]
          have hok' : OkFor (fun i => oracle (i + 1)) rs := by
            intro i hi
            have := hok (i + 1) (by simpa using Nat.succ_lt_succ hi)
            simpa using this
          have herr' : genParse (oracle (rs.length + 1)) = .error e := by
            simpa using herr
          have hlt' : rs.length < rest.length := by
            simpa using Nat.lt_of_succ_lt_succ (by simpa using hlt)
          simp only [carouselLoop]
          rw [hcs]
          simp only []
          rw [deckExtractStep_eq]
          rw [ih rest (fun i => oracle (i + 1)) _ e hlt' hok' herr']
          simp only []
          rw [foldDeck_cons]
          have harith : ctx.slideCount + 1 + rs.length = ctx.slideCount + (rs.length + 1) := by
            omega
          simp [harith]

theorem carouselLoop_ctx_shape (slides : List Slide) :
    ∀ (oracle : Nat → RemoteHttp) (ctx : PresentationContext),
      ∃ n od,
        (carouselLoop oracle slides ctx).2.1 = { ctx with slideCount := n, deckId := od }
        ∧ (∀ d, d ≠ "" → ctx.deckId = some d → od = some d) := by
  induction slides with
  | nil =>
      intro oracle ctx
      exact ⟨ctx.slideCount, ctx.deckId, rfl, fun _ _ h => h⟩
  | cons s rest ih =>
      intro oracle ctx
      cases hcs : createSlide (oracle 0) ctx with
      | error e =>
          refine ⟨ctx.slideCount, ctx.deckId, ?_, fun _ _ h => h⟩
          simp only [carouselLoop]
          rw [hcs]
      | ok p =>
          obtain ⟨hg, hp2⟩ := createSlide_inv hcs
          obtain ⟨result, ctx1⟩ := p
          simp only at hp2
          subst hp2
          obtain ⟨n, od, hshape, hpres⟩ :=
            ih (fun i => oracle (i + 1))
              (deckExtractStep { ctx with slideCount := ctx.slideCount + 1 } result)
          refine ⟨n, od, ?_, ?_⟩
          · simp only [carouselLoop]
            rw [hcs]
            simp only []
            cases hrec : carouselLoop (fun i => oracle (i + 1)) rest
                (deckExtractStep { ctx with slideCount := ctx.slideCount + 1 } result) with
            | mk exc rest2 =>
                obtain ⟨ctxF, calls⟩ := rest2
                rw [hrec] at hshape
                simp only at hshape
                cases exc with
                | error e =>
                    simpa [deckExtractStep_eq] using hshape
                | ok results =>
                    simpa [deckExtractStep_eq] using hshape
          · intro d hd hdeck
            apply hpres d hd
            rw [deckExtractStep_eq]
            exact stepDeckOpt_of_some hd hdeck result

/-! ### Eviction lemmas -/

theorem lookupCtx_none_of_not_mem {reg : Registry} {k : String}
    (h : k ∉ reg.map Prod.fst) : lookupCtx reg k = none := by
  induction reg with
  | nil => rfl
  | cons hd tl ih =>
      obtain ⟨k0, c0⟩ := hd
      simp only [List.map_cons, List.mem_cons, not_or] at h
      have hne : ¬ (k0 = k) := fun hk => h.1 hk.symm
      simp only [lookupCtx, alookup, if_neg hne]
      exact ih h.2

theorem evictStale_keys_subset (reg : Registry) (now : Int) {k : String}
    (h : k ∈ (evictStale reg now).map Prod.fst) : k ∈ reg.map Prod.fst := by
  have hsub : List.filter
      (fun kc => !(decide (kc.2.lastUsed < now - ttlMillis))) reg ⊆ reg :=
    (List.filter_sublist _).subset
  exact List.map_subset Prod.fst hsub h

/-! ### Concrete fixtures used by the witnesses -/

def freshA : FreshIds := ⟨"aa", "bb", "cc"⟩

def ctxA : PresentationContext :=
  { presentationId := "p1", conversationId := "c1", userId := "u1",
    slideCount := 2, createdAt := 0, lastUsed := 50,
    themeId := none, themeOffered := true, deckId := some "d1" }

def ctxB : PresentationContext :=
  { presentationId := "p2", conversationId := "c2", userId := "u2",
    slideCount := 0, createdAt := 0, lastUsed := 200000000,
    themeId := none, themeOffered := false, deckId := none }

def regAB : Registry := [("p1", ctxA), ("p2", ctxB)]

/-- A well-formed generation response body whose view URL carries deck
id `deck99`. -/
def genBodyA : Json :=
  Json.obj [("data", Json.obj
    [("image_url", Json.str "http://img/1.png"),
     ("presentation_view_url", Json.str "https://app.slidesgpt.com//view/deck99")])]

def genRespA : GenerateResponse :=
  ⟨⟨"http://img/1.png", "https://app.slidesgpt.com//view/deck99"⟩⟩

def themeRespA : ApplyThemeResponse :=
  ⟨true, ⟨"tokyo-dark", "Tokyo Dark"⟩, [⟨1, "http://img/1t.png"⟩], "http://view", "ok"⟩

def envA : DispatchEnv :=
  { now := 1000, fresh := freshA,
    genOracle := fun _ => Except.ok genBodyA,
    searchOracle := Except.ok (Json.arr []),
    themeOracle := Except.ok themeRespA }

def slideJsonA : Json :=
  Json.obj [("title", Json.str "Intro"), ("subtitle", Json.str "Sub"),
            ("slidenum", Json.num 1), ("image_id", Json.str ""),
            ("body", Json.arr []), ("talktrack", Json.str "talk"),
            ("sources", Json.arr [])]

def slideA : Slide :=
  { title := "Intro", subtitle := "Sub", slidenum := 1, image_id := "",
    body := [], talktrack := "talk", sources := [], force_edit := none }

/-! ## The claims -/

/-- C1: for every registry state and every token that is a key of the
registry, `getOrCreatePresentation` returns the very context stored under
it — all fields carried forward — mutating only `lastUsed`, which is set
to the current time, and inserts no new context (the key set of the
registry is unchanged, and every other key still maps to its old
context). -/
theorem getOrCreate_existing_refreshes (reg : Registry) (now : Int)
    (fresh : FreshIds) (t : String) (ctx : PresentationContext)
    (ht : t ≠ "") (h : lookupCtx reg t = some ctx) :
    getOrCreatePresentation reg now fresh (some t) =
      ((t, { ctx with lastUsed := now }), setCtx reg t { ctx with lastUsed := now })
    ∧ (∀ k, lookupCtx (getOrCreatePresentation reg now fresh (some t)).2 k =
        if k = t then some { ctx with lastUsed := now } else lookupCtx reg k)
    ∧ ((getOrCreatePresentation reg now fresh (some t)).2).map Prod.fst
        = reg.map Prod.fst := by
  have hmain := getOrCreate_known now fresh ht h
  refine ⟨hmain, ?_, ?_⟩
  · intro k
    rw [hmain]
    exact lookupCtx_setCtx reg t _ k
  · rw [hmain]
    exact setCtx_keys_of_mem _ (mem_keys_of_lookupCtx h)

/-- Witness for C1 at a concrete registry: the stored context `ctxA` is
returned with `lastUsed` refreshed to 777 and nothing else changed. -/
theorem getOrCreate_existing_refreshes_witness :
    lookupCtx regAB "p1" = some ctxA ∧
    getOrCreatePresentation regAB 777 freshA (some "p1") =
      (("p1", { ctxA with lastUsed := 777 }),
       setCtx regAB "p1" { ctxA with lastUsed := 777 }) :=
  ⟨rfl,
   (getOrCreate_existing_refreshes regAB 777 freshA "p1" ctxA (by decide) rfl).1⟩

/-- C2: resolve-or-create with an empty or absent token always succeeds
and builds a brand-new context under the freshly generated
`pres_<hex>` key, with fresh synthetic conversation/user identifiers,
`slideCount` 0, no deck, no theme, `themeOffered` false; an unknown
non-empty token becomes the key itself; the new entry is inserted without
touching any other key. -/
theorem getOrCreate_fresh_context (reg : Registry) (now : Int) (fresh : FreshIds) :
    (∀ pid?, (pid? = none ∨ pid? = some "") →
        getOrCreatePresentation reg now fresh pid? =
          ((generatePresentationId fresh.pidHex,
            newContext now fresh (generatePresentationId fresh.pidHex)),
           setCtx reg (generatePresentationId fresh.pidHex)
             (newContext now fresh (generatePresentationId fresh.pidHex))))
    ∧ (∀ t, t ≠ "" → lookupCtx reg t = none →
        getOrCreatePresentation reg now fresh (some t) =
          ((t, newContext now fresh t), setCtx reg t (newContext now fresh t)))
    ∧ generatePresentationId fresh.pidHex = "pres_" ++ fresh.pidHex
    ∧ (∀ key, (newContext now fresh key).presentationId = key
        ∧ (newContext now fresh key).conversationId = fresh.convHex
        ∧ (newContext now fresh key).userId = "mcp-user-" ++ fresh.userHex
        ∧ (newContext now fresh key).slideCount = 0
        ∧ (newContext now fresh key).deckId = none
        ∧ (newContext now fresh key).themeId = none
        ∧ (newContext now fresh key).themeOffered = false)
    ∧ (∀ key c, lookupCtx reg key = none →
        lookupCtx (setCtx reg key c) key = some c
        ∧ ∀ k', k' ≠ key → lookupCtx (setCtx reg key c) k' = lookupCtx reg k') := by
  refine ⟨fun pid? h => getOrCreate_empty reg now fresh h,
          fun t ht h => getOrCreate_unknown now fresh ht h,
          rfl,
          fun key => ⟨rfl, rfl, rfl, rfl, rfl, rfl, rfl⟩,
          fun key c _ => ⟨?_, fun k' hk' => ?_⟩⟩
  · rw [lookupCtx_setCtx]
    simp
  · rw [lookupCtx_setCtx]
    rw [if_neg hk']

/-- Witness for C2: with an absent token a brand-new `pres_aa` context is
created and inserted into the concrete registry. -/
theorem getOrCreate_fresh_context_witness :
    getOrCreatePresentation regAB 9 freshA none =
      ((generatePresentationId freshA.pidHex,
        newContext 9 freshA (generatePresentationId freshA.pidHex)),
       setCtx regAB (generatePresentationId freshA.pidHex)
         (newContext 9 freshA (generatePresentationId freshA.pidHex)))
    ∧ (newContext 9 freshA (generatePresentationId freshA.pidHex)).slideCount = 0 :=
  ⟨(getOrCreate_fresh_context regAB 9 freshA).1 none (Or.inl rfl),
   ((getOrCreate_fresh_context regAB 9 freshA).2.2.2.1
      (generatePresentationId freshA.pidHex)).2.2.2.1⟩

/-- C6: one eviction sweep removes exactly the contexts whose `lastUsed`
strictly precedes `now - 24h`; every surviving context is unchanged. -/
theorem evictStale_exact (reg : Registry) (now : Int) (hWF : Registry.WF reg)
    (k : String) (c : PresentationContext) :
    lookupCtx (evictStale reg now) k = some c ↔
      (lookupCtx reg k = some c ∧ now - ttlMillis ≤ c.lastUsed) := by
  induction reg with
  | nil => simp [evictStale, lookupCtx, alookup]
  | cons hd tl ih =>
      obtain ⟨k0, c0⟩ := hd
      have hWF' : Registry.WF tl := by
        have := hWF
        simp only [Registry.WF, List.map_cons, List.nodup_cons] at this
        exact this.2
      have hk0 : k0 ∉ tl.map Prod.fst := by
        have := hWF
        simp only [Registry.WF, List.map_cons, List.nodup_cons] at this
        exact this.1
      by_cases hkeep : now - ttlMillis ≤ c0.lastUsed
      · have hfilter : evictStale ((k0, c0) :: tl) now = (k0, c0) :: evictStale tl now := by
          simp only [evictStale, List.filter]
          have : (decide (c0.lastUsed < now - ttlMillis)) = false := by
            simp [not_lt.mpr hkeep]
          rw [this]
          rfl
        rw [hfilter]
        by_cases hk : k0 = k
        · subst hk
          simp only [lookupCtx, alookup, if_pos rfl]
          constructor
          · rintro h
            cases h
            exact ⟨rfl, hkeep⟩
          · rintro ⟨h1, _⟩
            cases h1
            rfl
        · simp only [lookupCtx, alookup, if_neg hk]
          exact ih hWF'
      · have hfilter : evictStale ((k0, c0) :: tl) now = evictStale tl now := by
          simp only [evictStale, List.filter]
          have : (decide (c0.lastUsed < now - ttlMillis)) = true := by
            simp [lt_of_not_le hkeep]
          rw [this]
          rfl
        rw [hfilter]
        by_cases hk : k0 = k
        · subst hk
          have hnone : lookupCtx (evictStale tl now) k0 = none := by
            apply lookupCtx_none_of_not_mem
            intro hmem
            exact hk0 (evictStale_keys_subset tl now hmem)
          rw [hnone]
          simp only [lookupCtx, alookup, if_pos rfl]
          constructor
          · intro h
            exact absurd h (by simp)
          · rintro ⟨h1, h2⟩
            cases h1
            exact absurd h2 hkeep
        · simp only [lookupCtx, alookup, if_neg hk]
          exact ih hWF'

/-- Witness for C6: in the concrete two-entry registry at `now` large,
`p1` (stale, `lastUsed = 50`) is evicted while `p2` is retained. -/
theorem evictStale_exact_witness :
    Registry.WF regAB
    ∧ ¬ (lookupCtx (evictStale regAB 200000000) "p1" = some ctxA)
    ∧ lookupCtx (evictStale regAB 200000000) "p2" = some ctxB := by
  have hwf : Registry.WF regAB := by unfold Registry.WF; decide
  refine ⟨hwf, ?_, ?_⟩
  · intro h
    have := (evictStale_exact regAB 200000000 hwf "p1" ctxA).mp h
    revert this
    decide
  · exact (evictStale_exact regAB 200000000 hwf "p2" ctxB).mpr (by decide)

/-! ### Dispatcher reduction helpers -/

theorem dispatchInner_create_slide (reg : Registry) (env : DispatchEnv)
    (rawArgs : Option Json) :
    dispatchInner reg env "create_slide" rawArgs =
      handleCreateSlide reg env.now env.fresh (rawArgs.getD (Json.obj []))
        (env.genOracle 0) := by
  simp [dispatchInner]

theorem dispatchInner_carousel (reg : Registry) (env : DispatchEnv)
    (rawArgs : Option Json) :
    dispatchInner reg env "create_slide_carousel" rawArgs =
      handleCreateSlideCarousel reg env.now env.fresh (rawArgs.getD (Json.obj []))
        env.genOracle := by
  simp [dispatchInner]

theorem dispatchInner_search (reg : Registry) (env : DispatchEnv)
    (rawArgs : Option Json) :
    dispatchInner reg env "search_images" rawArgs =
      ((handleSearchImages (rawArgs.getD (Json.obj [])) env.searchOracle).1, reg,
       (handleSearchImages (rawArgs.getD (Json.obj [])) env.searchOracle).2) := by
  simp [dispatchInner]

theorem dispatchInner_apply_theme (reg : Registry) (env : DispatchEnv)
    (rawArgs : Option Json) :
    dispatchInner reg env "apply_theme" rawArgs =
      handleApplyTheme reg (rawArgs.getD (Json.obj [])) env.themeOracle := by
  simp [dispatchInner]

/-- C4: `apply_theme` with an unknown token returns a flagged
`PresentationNotFound` error without any remote call; with a known
context lacking a `deckId` it returns a flagged `DeckNotReady` error
without any remote call; with a ready context and a successful remote
exchange it returns a non-error response and sets the context's
`themeId` to exactly the requested theme. -/
theorem apply_theme_contract (reg : Registry) (env : DispatchEnv) (rawArgs : Json)
    (pid tid : String)
    (hparse : zApplyThemeInput rawArgs = .ok (pid, tid)) :
    (lookupCtx reg pid = none →
      handleToolCall reg env "apply_theme" (some rawArgs) =
        ({ text := "❌ Presentation not found: " ++ pid
             ++ ". Make sure you\x27re using the correct presentation_id from slide creation.",
           structuredContent := none, isError := true }, reg, []))
  ∧ (∀ ctx, lookupCtx reg pid = some ctx → ctx.deckId = none →
      handleToolCall reg env "apply_theme" (some rawArgs) =
        ({ text := "❌ No deck ID available for presentation: " ++ pid
             ++ ". Please create at least one slide first.",
           structuredContent := none, isError := true }, reg, []))
  ∧ (∀ ctx dk resp, lookupCtx reg pid = some ctx → ctx.deckId = some dk → dk ≠ "" →
      env.themeOracle = .ok resp →
      ((handleToolCall reg env "apply_theme" (some rawArgs)).1.isError = false
       ∧ (handleToolCall reg env "apply_theme" (some rawArgs)).2.1
           = setCtx reg pid { ctx with themeId := some tid }
       ∧ (handleToolCall reg env "apply_theme" (some rawArgs)).2.2
           = [RemoteCall.theme dk tid ctx.userId ctx.conversationId]
       ∧ lookupCtx ((handleToolCall reg env "apply_theme" (some rawArgs)).2.1) pid
           = some { ctx with themeId := some tid })) := by
  refine ⟨?_, ?_, ?_⟩
  · intro hlook
    simp only [handleToolCall, dispatchInner_apply_theme]
    simp [handleApplyTheme, hparse, hlook]
  · intro ctx hlook hdeck
    simp only [handleToolCall, dispatchInner_apply_theme]
    simp [handleApplyTheme, hparse, hlook, strFalsy, hdeck]
  · intro ctx dk resp hlook hdeck hdk horacle
    have hfalsy : strFalsy ctx.deckId = false := by
      rw [hdeck]; exact strFalsy_some_of_ne hdk
    have hget : ctx.deckId.getD "" = dk := by rw [hdeck]; rfl
    simp only [handleToolCall, dispatchInner_apply_theme]
    simp only [Option.getD_some]
    simp [handleApplyTheme, hparse, hlook, hfalsy, hget, applyTheme, horacle,
          lookupCtx_setCtx]

/-- Witness for C4 at concrete inputs: unknown token `nope` is rejected
as `PresentationNotFound`; known `p1` (deck `d1`) succeeds and stores the
requested theme. -/
theorem apply_theme_contract_witness :
    zApplyThemeInput (Json.obj [("presentation_id", Json.str "nope"),
      ("theme_id", Json.str "tokyo-dark")]) = .ok ("nope", "tokyo-dark")
    ∧ (handleToolCall regAB envA "apply_theme"
        (some (Json.obj [("presentation_id", Json.str "nope"),
          ("theme_id", Json.str "tokyo-dark")]))).1.isError = true
    ∧ (handleToolCall regAB envA "apply_theme"
        (some (Json.obj [("presentation_id", Json.str "p1"),
          ("theme_id", Json.str "tokyo-dark")]))).1.isError = false
    ∧ lookupCtx ((handleToolCall regAB envA "apply_theme"
        (some (Json.obj [("presentation_id", Json.str "p1"),
          ("theme_id", Json.str "tokyo-dark")]))).2.1) "p1"
        = some { ctxA with themeId := some "tokyo-dark" } := by
  have h1 := apply_theme_contract regAB envA
    (Json.obj [("presentation_id", Json.str "nope"), ("theme_id", Json.str "tokyo-dark")])
    "nope" "tokyo-dark" (by rfl)
  have h2 := apply_theme_contract regAB envA
    (Json.obj [("presentation_id", Json.str "p1"), ("theme_id", Json.str "tokyo-dark")])
    "p1" "tokyo-dark" (by rfl)
  refine ⟨rfl, ?_, ?_, ?_⟩
  · rw [h1.1 (by rfl)]
  · exact (h2.2.2 ctxA "d1" themeRespA rfl rfl (by decide) rfl).1
  · exact (h2.2.2 ctxA "d1" themeRespA rfl rfl (by decide) rfl).2.2.2

/-- C9: a successful remote search with zero results or a non-array body
yields a non-error "no results" response; an error is raised only on a
non-success HTTP status (every successful exchange yields a non-error
response). -/
theorem search_images_contract (reg : Registry) (env : DispatchEnv)
    (rawArgs : Json) (caption : String)
    (hparse : zSearchInput rawArgs = .ok caption) :
    (∀ body, env.searchOracle = .ok body →
       (body = Json.arr [] ∨ ∀ items, body ≠ Json.arr items) →
       handleToolCall reg env "search_images" (some rawArgs) =
         ({ text := "No images found for \"" ++ caption
              ++ "\". Try different search terms or proceed without an image.",
            structuredContent := none, isError := false }, reg,
          [RemoteCall.search caption]))
  ∧ (∀ status, env.searchOracle = .error status →
       handleToolCall reg env "search_images" (some rawArgs) =
         (errorResponse ("Search failed with status " ++ toString status), reg,
          [RemoteCall.search caption])
       ∧ (errorResponse ("Search failed with status " ++ toString status)).isError
           = true)
  ∧ (∀ body, env.searchOracle = .ok body →
       (handleToolCall reg env "search_images" (some rawArgs)).1.isError = false) := by
  refine ⟨?_, ?_, ?_⟩
  · intro body horacle hbody
    have hempty : searchImages env.searchOracle = .ok [] := by
      rw [horacle]
      rcases hbody with h | h
      · rw [h]; rfl
      · cases body with
        | arr items => exact absurd rfl (h items)
        | null => rfl
        | bool b => rfl
        | num n => rfl
        | str s => rfl
        | obj fs => rfl
    simp only [handleToolCall, dispatchInner_search]
    simp [handleSearchImages, hparse, hempty]
  · intro status horacle
    have herr : searchImages env.searchOracle =
        .error ("Search failed with status " ++ toString status) := by
      rw [horacle]; rfl
    constructor
    · simp only [handleToolCall, dispatchInner_search]
      simp [handleSearchImages, hparse, herr]
    · rfl
  · intro body horacle
    simp only [handleToolCall, dispatchInner_search]
    cases body with
    | arr items =>
        have hok : searchImages env.searchOracle = .ok items := by
          rw [horacle]; rfl
        by_cases hlen : items.length == 0
        · simp [handleSearchImages, hparse, hok, hlen]
        · simp only [Bool.not_eq_true] at hlen
          simp [handleSearchImages, hparse, hok, hlen]
    | null =>
        have hok : searchImages env.searchOracle = .ok [] := by rw [horacle]; rfl
        simp [handleSearchImages, hparse, hok]
    | bool b =>
        have hok : searchImages env.searchOracle = .ok [] := by rw [horacle]; rfl
        simp [handleSearchImages, hparse, hok]
    | num n =>
        have hok : searchImages env.searchOracle = .ok [] := by rw [horacle]; rfl
        simp [handleSearchImages, hparse, hok]
    | str s =>
        have hok : searchImages env.searchOracle = .ok [] := by rw [horacle]; rfl
        simp [handleSearchImages, hparse, hok]
    | obj fs =>
        have hok : searchImages env.searchOracle = .ok [] := by rw [horacle]; rfl
        simp [handleSearchImages, hparse, hok]

/-- Witness for C9: the concrete environment answers the search with an
empty array; the handler returns the non-error "no results" response. -/
theorem search_images_contract_witness :
    zSearchInput (Json.obj [("caption", Json.str "cats")]) = .ok "cats"
    ∧ handleToolCall regAB envA "search_images"
        (some (Json.obj [("caption", Json.str "cats")])) =
      ({ text := "No images found for \"cats\". Try different search terms or proceed without an image.",
         structuredContent := none, isError := false }, regAB,
       [RemoteCall.search "cats"]) :=
  ⟨rfl,
   (search_images_contract regAB envA (Json.obj [("caption", Json.str "cats")])
      "cats" rfl).1 (Json.arr []) rfl (Or.inl rfl)⟩

/-- C8: the tool-call dispatcher is total — for every tool name and
arguments it returns a structured response; every error thrown inside the
`try` body is converted into a response flagged `isError` with a
human-readable message, and an unknown tool name yields the flagged
`Unknown tool` response. -/
theorem dispatcher_converts_errors (reg : Registry) (env : DispatchEnv)
    (toolName : String) (rawArgs : Option Json) :
    (∀ e reg2 calls,
       dispatchInner reg env toolName rawArgs = (.error e, reg2, calls) →
       handleToolCall reg env toolName rawArgs = (errorResponse e, reg2, calls)
       ∧ (errorResponse e).isError = true
       ∧ (errorResponse e).text = "❌ Error: " ++ e)
  ∧ (∀ r reg2 calls,
       dispatchInner reg env toolName rawArgs = (.ok r, reg2, calls) →
       handleToolCall reg env toolName rawArgs = (r, reg2, calls))
  ∧ (toolName ∉ (["create_slide", "create_slide_carousel", "search_images",
       "apply_theme", "show_theme_picker"] : List String) →
       handleToolCall reg env toolName rawArgs =
         (errorResponse ("Unknown tool: " ++ toolName), reg, [])) := by
  refine ⟨?_, ?_, ?_⟩
  · intro e reg2 calls h
    refine ⟨?_, rfl, rfl⟩
    simp only [handleToolCall, h]
  · intro r reg2 calls h
    simp only [handleToolCall, h]
  · intro hmem
    simp only [List.mem_cons, List.not_mem_nil, or_false, not_or] at hmem
    obtain ⟨h1, h2, h3, h4, h5⟩ := hmem
    simp only [handleToolCall, dispatchInner, if_neg h1, if_neg h2, if_neg h3,
      if_neg h4, if_neg h5]

/-- Witness for C8: a concrete erroring dispatch (HTTP 500 on
`search_images`) is converted into the flagged error response, and an
unknown tool name is flagged too. -/
theorem dispatcher_converts_errors_witness :
    (dispatchInner regAB { envA with searchOracle := Except.error 500 }
        "search_images" (some (Json.obj [("caption", Json.str "x")])) =
      (.error "Search failed with status 500", regAB, [RemoteCall.search "x"]))
    ∧ handleToolCall regAB { envA with searchOracle := Except.error 500 }
        "search_images" (some (Json.obj [("caption", Json.str "x")])) =
      (errorResponse "Search failed with status 500", regAB, [RemoteCall.search "x"])
    ∧ handleToolCall regAB envA "frobnicate" none =
      (errorResponse "Unknown tool: frobnicate", regAB, []) := by
  have hde : dispatchInner regAB { envA with searchOracle := Except.error 500 }
      "search_images" (some (Json.obj [("caption", Json.str "x")])) =
      (.error "Search failed with status 500", regAB, [RemoteCall.search "x"]) := by
    rw [dispatchInner_search]
    rfl
  refine ⟨hde, ?_, ?_⟩
  · exact ((dispatcher_converts_errors regAB { envA with searchOracle := Except.error 500 }
      "search_images" (some (Json.obj [("caption", Json.str "x")]))).1
      "Search failed with status 500" regAB [RemoteCall.search "x"] hde).1
  · exact (dispatcher_converts_errors regAB envA "frobnicate" none).2.2 (by decide)

/-! ### Helpers for the deck-id and theme-offer claims -/

theorem handleToolCall_snd (reg : Registry) (env : DispatchEnv)
    (toolName : String) (rawArgs : Option Json) :
    (handleToolCall reg env toolName rawArgs).2 =
      (dispatchInner reg env toolName rawArgs).2 := by
  unfold handleToolCall
  cases h : dispatchInner reg env toolName rawArgs with
  | mk exc p => cases exc <;> rfl

theorem getOrCreate_decomp (reg : Registry) (now : Int) (fresh : FreshIds)
    (pid? : Option String) :
    getOrCreatePresentation reg now fresh pid? =
      (((getOrCreatePresentation reg now fresh pid?).1.1,
        (getOrCreatePresentation reg now fresh pid?).1.2),
       setCtx reg (getOrCreatePresentation reg now fresh pid?).1.1
         (getOrCreatePresentation reg now fresh pid?).1.2) := by
  unfold getOrCreatePresentation createNewPresentation
  cases pid? with
  | none => rfl
  | some t =>
      by_cases ht : t = ""
      · subst ht; rfl
      · simp only [if_neg ht]
        cases h : lookupCtx reg t <;> rfl

theorem getOrCreate_deckId_prop {reg : Registry} {fresh : FreshIds}
    {pid : String} {ctx : PresentationContext} {d : String}
    (now : Int) (pid? : Option String)
    (hlook : lookupCtx reg pid = some ctx) (hdeck : ctx.deckId = some d)
    (hfresh : generatePresentationId fresh.pidHex ≠ pid) :
    (getOrCreatePresentation reg now fresh pid?).1.1 = pid →
      (getOrCreatePresentation reg now fresh pid?).1.2.deckId = some d := by
  cases pid? with
  | none =>
      rw [getOrCreate_empty reg now fresh (Or.inl rfl)]
      intro hk
      exact absurd hk hfresh
  | some t =>
      by_cases ht : t = ""
      · subst ht
        rw [getOrCreate_empty reg now fresh (Or.inr rfl)]
        intro hk
        exact absurd hk hfresh
      · cases hl : lookupCtx reg t with
        | some ctxT =>
            rw [getOrCreate_known now fresh ht hl]
            intro hk
            simp only at hk ⊢
            subst hk
            rw [hl] at hlook
            cases hlook
            exact hdeck
        | none =>
            rw [getOrCreate_unknown now fresh ht hl]
            intro hk
            simp only at hk
            subst hk
            rw [hl] at hlook
            exact absurd hlook (by simp)

theorem preserved_lookup_setCtx {reg : Registry} {pid key : String}
    {c0 : PresentationContext} {d : String}
    (hne_case : pid ≠ key →
      ∃ ctx', lookupCtx reg pid = some ctx' ∧ ctx'.deckId = some d)
    (heq_case : pid = key → c0.deckId = some d) :
    ∃ ctx', lookupCtx (setCtx reg key c0) pid = some ctx'
      ∧ ctx'.deckId = some d := by
  by_cases hk : pid = key
  · exact ⟨c0, by rw [lookupCtx_setCtx, if_pos hk], heq_case hk⟩
  · obtain ⟨ctx', h1, h2⟩ := hne_case hk
    exact ⟨ctx', by rw [lookupCtx_setCtx, if_neg hk]; exact h1, h2⟩

theorem themeBranch_deckId (cond : Bool) (x : PresentationContext) :
    (if cond then { x with themeOffered := true } else x).deckId = x.deckId := by
  split <;> rfl

theorem handleCreateSlide_preserves_deckId
    {reg : Registry} {now : Int} {fresh : FreshIds} {args : Json}
    {remote : RemoteHttp} {pid : String} {ctx : PresentationContext} {d : String}
    (hlook : lookupCtx reg pid = some ctx) (hdeck : ctx.deckId = some d)
    (hd : d ≠ "") (hfresh : generatePresentationId fresh.pidHex ≠ pid) :
    ∃ ctx', lookupCtx ((handleCreateSlide reg now fresh args remote).2.1) pid
      = some ctx' ∧ ctx'.deckId = some d := by
  cases hparse : zSlideViewerInput args with
  | error e =>
      simp only [handleCreateSlide, hparse]
      exact ⟨ctx, hlook, hdeck⟩
  | ok p =>
      obtain ⟨pid?, slideData⟩ := p
      have hprop := getOrCreate_deckId_prop now pid? hlook hdeck hfresh
      have hdec := getOrCreate_decomp reg now fresh pid?
      cases hgoc : getOrCreatePresentation reg now fresh pid? with
      | mk a reg1 =>
          obtain ⟨key, ctx0⟩ := a
          rw [hgoc] at hdec hprop
          simp only at hdec hprop
          have hreg1 : reg1 = setCtx reg key ctx0 := congrArg Prod.snd hdec
          subst hreg1
          simp only [handleCreateSlide, hparse, hgoc]
          cases hcs : createSlide remote ctx0 with
          | error e =>
              simp only []
              exact preserved_lookup_setCtx
                (fun _ => ⟨ctx, hlook, hdeck⟩) (fun hk => hprop hk.symm)
          | ok pr =>
              obtain ⟨result, ctx1⟩ := pr
              obtain ⟨hg, hctx1⟩ := createSlide_inv hcs
              simp only at hctx1
              subst hctx1
              simp only []
              apply preserved_lookup_setCtx
              · intro hne
                refine ⟨ctx, ?_, hdeck⟩
                rw [lookupCtx_setCtx, if_neg hne]
                exact hlook
              · intro hk
                rw [themeBranch_deckId]
                rw [deckExtractStep_eq]
                exact stepDeckOpt_of_some hd (hprop hk.symm) result

theorem handleCarousel_preserves_deckId
    {reg : Registry} {now : Int} {fresh : FreshIds} {args : Json}
    {oracle : Nat → RemoteHttp} {pid : String} {ctx : PresentationContext}
    {d : String}
    (hlook : lookupCtx reg pid = some ctx) (hdeck : ctx.deckId = some d)
    (hd : d ≠ "") (hfresh : generatePresentationId fresh.pidHex ≠ pid) :
    ∃ ctx', lookupCtx ((handleCreateSlideCarousel reg now fresh args oracle).2.1) pid
      = some ctx' ∧ ctx'.deckId = some d := by
  cases hparse : zSlideCarouselInput args with
  | error e =>
      simp only [handleCreateSlideCarousel, hparse]
      exact ⟨ctx, hlook, hdeck⟩
  | ok p =>
      obtain ⟨pid?, slidesData⟩ := p
      have hprop := getOrCreate_deckId_prop now pid? hlook hdeck hfresh
      have hdec := getOrCreate_decomp reg now fresh pid?
      cases hgoc : getOrCreatePresentation reg now fresh pid? with
      | mk a reg1 =>
          obtain ⟨key, ctx0⟩ := a
          rw [hgoc] at hdec hprop
          simp only at hdec hprop
          have hreg1 : reg1 = setCtx reg key ctx0 := congrArg Prod.snd hdec
          subst hreg1
          have hshape := carouselLoop_ctx_shape slidesData oracle ctx0
          simp only [handleCreateSlideCarousel, hparse, hgoc]
          cases hloop : carouselLoop oracle slidesData ctx0 with
          | mk exc pr =>
              obtain ⟨ctxF, calls⟩ := pr
              rw [hloop] at hshape
              obtain ⟨n, od, hF, hpres⟩ := hshape
              simp only at hF
              have hFdeck : key = pid → ctxF.deckId = some d := by
                intro hk
                rw [hF]
                simp only
                exact hpres d hd (hprop hk)
              cases exc with
              | error e =>
                  simp only []
                  apply preserved_lookup_setCtx
                  · intro hne
                    refine ⟨ctx, ?_, hdeck⟩
                    rw [lookupCtx_setCtx, if_neg hne]
                    exact hlook
                  · intro hk
                    exact hFdeck hk.symm
              | ok results =>
                  simp only []
                  apply preserved_lookup_setCtx
                  · intro hne
                    refine ⟨ctx, ?_, hdeck⟩
                    rw [lookupCtx_setCtx, if_neg hne]
                    exact hlook
                  · intro hk
                    rw [themeBranch_deckId]
                    exact hFdeck hk.symm

/-- C3: once a context's `deckId` is non-null it is never overwritten by
any later `create_slide` or `create_slide_carousel` call, whatever token
the call carries, whatever the remote responses contain — even a view URL
parsing to a different deck identifier. -/
theorem deckId_set_once (reg : Registry) (env : DispatchEnv) (pid : String)
    (ctx : PresentationContext) (d : String)
    (hlook : lookupCtx reg pid = some ctx) (hdeck : ctx.deckId = some d)
    (hd : d ≠ "") (hfresh : generatePresentationId env.fresh.pidHex ≠ pid) :
    (∀ rawArgs, ∃ ctx',
       lookupCtx ((handleToolCall reg env "create_slide" rawArgs).2.1) pid
         = some ctx' ∧ ctx'.deckId = some d)
    ∧ (∀ rawArgs, ∃ ctx',
       lookupCtx ((handleToolCall reg env "create_slide_carousel" rawArgs).2.1) pid
         = some ctx' ∧ ctx'.deckId = some d) := by
  constructor
  · intro rawArgs
    have h2 := handleToolCall_snd reg env "create_slide" rawArgs
    have h1 : ((handleToolCall reg env "create_slide" rawArgs).2).1 =
        ((handleCreateSlide reg env.now env.fresh (rawArgs.getD (Json.obj []))
          (env.genOracle 0)).2).1 := by
      rw [h2, dispatchInner_create_slide]
    rw [h1]
    exact handleCreateSlide_preserves_deckId hlook hdeck hd hfresh
  · intro rawArgs
    have h2 := handleToolCall_snd reg env "create_slide_carousel" rawArgs
    have h1 : ((handleToolCall reg env "create_slide_carousel" rawArgs).2).1 =
        ((handleCreateSlideCarousel reg env.now env.fresh (rawArgs.getD (Json.obj []))
          env.genOracle).2).1 := by
      rw [h2, dispatchInner_carousel]
    rw [h1]
    exact handleCarousel_preserves_deckId hlook hdeck hd hfresh

/-- Witness for C3: `p1` holds deck `d1`; a `create_slide` call on `p1`
whose remote response carries a view URL parsing to `deck99` leaves
`deckId = d1` in place. -/
theorem deckId_set_once_witness :
    lookupCtx regAB "p1" = some ctxA ∧ ctxA.deckId = some "d1"
    ∧ extractDeckIdFromUrl "https://app.slidesgpt.com//view/deck99" = some "deck99"
    ∧ (∃ ctx', lookupCtx ((handleToolCall regAB envA "create_slide"
        (some (Json.obj [("presentation_id", Json.str "p1"),
          ("slide_data", slideJsonA)]))).2.1) "p1" = some ctx'
        ∧ ctx'.deckId = some "d1") :=
  ⟨rfl, rfl, by decide,
   (deckId_set_once regAB envA "p1" ctxA "d1" rfl rfl (by decide) (by decide)).1
     (some (Json.obj [("presentation_id", Json.str "p1"),
       ("slide_data", slideJsonA)]))⟩

/-! ### Carousel success and failure paths -/

theorem themeBranch_slideCount (cond : Bool) (x : PresentationContext) :
    (if cond then { x with themeOffered := true } else x).slideCount
      = x.slideCount := by
  split <;> rfl

theorem foldDeck_none (rs : List GenerateResponse) :
    foldDeck none rs = firstDeckId rs := by
  unfold foldDeck
  simp only [strFalsy, if_pos rfl]
  cases h : firstDeckId rs <;> rfl

/-- C7: one `create_slide_carousel` call issues the remote generation
calls strictly in input order, and on full success the response pairs the
`i`-th input slide with the `i`-th remote result, the context's
`slideCount` grows by the input length, and (when the context had no
deck yet) `deckId` is seeded from the first response whose view URL
yields a deck identifier. -/
theorem carousel_sequential_success (reg : Registry) (env : DispatchEnv)
    (rawArgs : Json) (pid? : Option String) (slidesData : List Slide)
    (results : List GenerateResponse)
    (key : String) (ctx0 : PresentationContext) (reg1 : Registry)
    (hparse : zSlideCarouselInput rawArgs = .ok (pid?, slidesData))
    (_hne : slidesData ≠ [])
    (hgoc : getOrCreatePresentation reg env.now env.fresh pid? = ((key, ctx0), reg1))
    (hlen : results.length = slidesData.length)
    (hok : OkFor env.genOracle results) :
    ((handleToolCall reg env "create_slide_carousel" (some rawArgs)).2.2
        = slidesData.map (fun s => RemoteCall.generate s ctx0.userId ctx0.conversationId))
    ∧ (handleToolCall reg env "create_slide_carousel" (some rawArgs)).1.isError = false
    ∧ (Option.bind (handleToolCall reg env "create_slide_carousel"
          (some rawArgs)).1.structuredContent (fun j => j.getField "slides")
        = some (.arr (List.zipWith carouselSlideJson slidesData results)))
    ∧ Option.map (fun c => c.slideCount)
        (lookupCtx ((handleToolCall reg env "create_slide_carousel" (some rawArgs)).2.1) key)
        = some (ctx0.slideCount + slidesData.length)
    ∧ (ctx0.deckId = none →
        Option.map (fun c => c.deckId)
          (lookupCtx ((handleToolCall reg env "create_slide_carousel" (some rawArgs)).2.1) key)
          = some (firstDeckId results)) := by
  have hloop := carouselLoop_ok slidesData env.genOracle ctx0 results hlen hok
  refine ⟨?_, ?_, ?_, ?_, ?_⟩
  · simp only [handleToolCall, dispatchInner_carousel, Option.getD_some,
      handleCreateSlideCarousel, hparse, hgoc, hloop]
  · simp only [handleToolCall, dispatchInner_carousel, Option.getD_some,
      handleCreateSlideCarousel, hparse, hgoc, hloop]
  · simp only [handleToolCall, dispatchInner_carousel, Option.getD_some,
      handleCreateSlideCarousel, hparse, hgoc, hloop]
    simp only [Option.bind, Json.getField, alookup_append]
    simp [alookup]
  · simp only [handleToolCall, dispatchInner_carousel, Option.getD_some,
      handleCreateSlideCarousel, hparse, hgoc, hloop]
    rw [lookupCtx_setCtx, if_pos rfl]
    simp only [Option.map_some']
    cases hcond : (!ctx0.themeOffered && strFalsy ctx0.themeId) <;> simp [hcond]
  · intro hnone
    simp only [handleToolCall, dispatchInner_carousel, Option.getD_some,
      handleCreateSlideCarousel, hparse, hgoc, hloop]
    rw [lookupCtx_setCtx, if_pos rfl]
    simp only [Option.map_some']
    cases hcond : (!ctx0.themeOffered && strFalsy ctx0.themeId) <;>
      simp [hcond, hnone, foldDeck_none]

/-- Witness for C7: a fresh presentation, two slides, both remote calls
succeed; the trace lists both generate calls in order, the response pairs
the slides with the results, and the final slide count is 2. -/
theorem carousel_sequential_success_witness :
    zSlideCarouselInput (Json.obj [("presentation_id", Json.str ""),
        ("slides_data", Json.arr [slideJsonA, slideJsonA])])
      = .ok (none, [slideA, slideA])
    ∧ ((handleToolCall regAB envA "create_slide_carousel"
        (some (Json.obj [("presentation_id", Json.str ""),
          ("slides_data", Json.arr [slideJsonA, slideJsonA])]))).2.2
        = [slideA, slideA].map (fun s => RemoteCall.generate s
            (newContext 1000 freshA (generatePresentationId freshA.pidHex)).userId
            (newContext 1000 freshA (generatePresentationId freshA.pidHex)).conversationId))
    ∧ (handleToolCall regAB envA "create_slide_carousel"
        (some (Json.obj [("presentation_id", Json.str ""),
          ("slides_data", Json.arr [slideJsonA, slideJsonA])]))).1.isError = false
    ∧ Option.map (fun c => c.slideCount)
        (lookupCtx ((handleToolCall regAB envA "create_slide_carousel"
          (some (Json.obj [("presentation_id", Json.str ""),
            ("slides_data", Json.arr [slideJsonA, slideJsonA])]))).2.1)
          (generatePresentationId freshA.pidHex))
        = some ((newContext 1000 freshA (generatePresentationId freshA.pidHex)).slideCount + 2)
    ∧ ((newContext 1000 freshA (generatePresentationId freshA.pidHex)).deckId = none →
        Option.map (fun c => c.deckId)
          (lookupCtx ((handleToolCall regAB envA "create_slide_carousel"
            (some (Json.obj [("presentation_id", Json.str ""),
              ("slides_data", Json.arr [slideJsonA, slideJsonA])]))).2.1)
            (generatePresentationId freshA.pidHex))
          = some (firstDeckId [genRespA, genRespA])) := by
  have hmain := carousel_sequential_success regAB envA
    (Json.obj [("presentation_id", Json.str ""),
      ("slides_data", Json.arr [slideJsonA, slideJsonA])])
    none [slideA, slideA] [genRespA, genRespA]
    (generatePresentationId freshA.pidHex)
    (newContext 1000 freshA (generatePresentationId freshA.pidHex))
    (setCtx regAB (generatePresentationId freshA.pidHex)
      (newContext 1000 freshA (generatePresentationId freshA.pidHex)))
    rfl (by simp)
    (getOrCreate_empty regAB 1000 freshA (Or.inl rfl))
    rfl
    (by
      intro i h
      have h2 : i < 2 := by simpa using h
      match i with
      | 0 => rfl
      | 1 => rfl
      | (n + 2) => exact absurd h2 (by omega))
  exact ⟨rfl, hmain.1, hmain.2.1, hmain.2.2.2.1, hmain.2.2.2.2⟩

/-- C10: the carousel is not atomic — if the `k`-th remote generation
fails after `k - 1` successes, the whole call returns a flagged error
response with no structured per-slide results, yet the context keeps the
effects of the `k - 1` successes: `slideCount` stays incremented by
`k - 1` and any deck id extracted from an earlier response stays set. -/
theorem carousel_not_atomic (reg : Registry) (env : DispatchEnv)
    (rawArgs : Json) (pid? : Option String) (slidesData : List Slide)
    (okResults : List GenerateResponse) (e : String)
    (key : String) (ctx0 : PresentationContext) (reg1 : Registry)
    (hparse : zSlideCarouselInput rawArgs = .ok (pid?, slidesData))
    (hgoc : getOrCreatePresentation reg env.now env.fresh pid? = ((key, ctx0), reg1))
    (hlt : okResults.length < slidesData.length)
    (hok : OkFor env.genOracle okResults)
    (herr : genParse (env.genOracle okResults.length) = .error e) :
    handleToolCall reg env "create_slide_carousel" (some rawArgs) =
      (errorResponse e,
       setCtx reg1 key
         { ctx0 with slideCount := ctx0.slideCount + okResults.length,
                     deckId := foldDeck ctx0.deckId okResults },
       (slidesData.take (okResults.length + 1)).map
         (fun s => RemoteCall.generate s ctx0.userId ctx0.conversationId))
    ∧ (errorResponse e).isError = true
    ∧ (errorResponse e).structuredContent = none
    ∧ lookupCtx (setCtx reg1 key
         { ctx0 with slideCount := ctx0.slideCount + okResults.length,
                     deckId := foldDeck ctx0.deckId okResults }) key
        = some { ctx0 with slideCount := ctx0.slideCount + okResults.length,
                           deckId := foldDeck ctx0.deckId okResults }
    ∧ (ctx0.deckId = none →
        foldDeck ctx0.deckId okResults = firstDeckId okResults) := by
  have hloop := carouselLoop_err okResults slidesData env.genOracle ctx0 e hlt hok herr
  refine ⟨?_, rfl, rfl, ?_, ?_⟩
  · simp only [handleToolCall, dispatchInner_carousel, Option.getD_some,
      handleCreateSlideCarousel, hparse, hgoc, hloop]
  · rw [lookupCtx_setCtx, if_pos rfl]
  · intro hnone
    rw [hnone, foldDeck_none]

/-- Environment whose remote generation succeeds on the first call and
answers HTTP 500 on every later call. -/
def envErr : DispatchEnv :=
  { envA with genOracle := fun i => if i = 0 then Except.ok genBodyA else Except.error 500 }

/-- Witness for C10: with two input slides, the first generation succeeds
and the second fails with HTTP 500; the call returns the flagged error
while the fresh context keeps `slideCount = 1` and the deck id `deck99`
extracted from the first response. -/
theorem carousel_not_atomic_witness :
    handleToolCall regAB envErr "create_slide_carousel"
        (some (Json.obj [("presentation_id", Json.str ""),
          ("slides_data", Json.arr [slideJsonA, slideJsonA])])) =
      (errorResponse "Failed to create slide: 500",
       setCtx regAB (generatePresentationId freshA.pidHex)
         { newContext 1000 freshA (generatePresentationId freshA.pidHex) with
             slideCount := (newContext 1000 freshA
               (generatePresentationId freshA.pidHex)).slideCount + 1,
             deckId := foldDeck (newContext 1000 freshA
               (generatePresentationId freshA.pidHex)).deckId [genRespA] },
       ([slideA, slideA].take 2).map
         (fun s => RemoteCall.generate s
           (newContext 1000 freshA (generatePresentationId freshA.pidHex)).userId
           (newContext 1000 freshA (generatePresentationId freshA.pidHex)).conversationId))
    ∧ foldDeck (newContext 1000 freshA
        (generatePresentationId freshA.pidHex)).deckId [genRespA] = some "deck99" :=
  ⟨(carousel_not_atomic regAB envErr
      (Json.obj [("presentation_id", Json.str ""),
        ("slides_data", Json.arr [slideJsonA, slideJsonA])])
      none [slideA, slideA] [genRespA] "Failed to create slide: 500"
      (generatePresentationId freshA.pidHex)
      (newContext 1000 freshA (generatePresentationId freshA.pidHex))
      (setCtx regAB (generatePresentationId freshA.pidHex)
        (newContext 1000 freshA (generatePresentationId freshA.pidHex)))
      rfl
      (getOrCreate_empty regAB 1000 freshA (Or.inl rfl))
      (by decide)
      (by
        intro i h
        have h2 : i < 1 := by simpa using h
        match i with
        | 0 => rfl
        | (n + 1) => exact absurd h2 (by omega))
      rfl).1,
   by decide⟩

/-! ### Theme-offer-once machinery -/

/-- One step of a run of slide-creating calls that all target the known
context `pid`: the final registry still holds `pid`; a response that
carries theme options leaves `themeOffered = true` behind; and a context
whose `themeOffered` is already `true` never gets theme options again
and keeps the flag. -/
theorem runOp_theme_step {reg : Registry} {pid : String} {ctx : PresentationContext}
    (hpid : pid ≠ "") (hlook : lookupCtx reg pid = some ctx)
    (op : SlideOp) (htok : opTargets pid op) :
    ∃ ctx', lookupCtx ((runOp reg op).2.1) pid = some ctx'
      ∧ (hasThemeOptions (runOp reg op).1 = true → ctx'.themeOffered = true)
      ∧ (ctx.themeOffered = true →
          hasThemeOptions (runOp reg op).1 = false ∧ ctx'.themeOffered = true) := by
  cases op with
  | single env a =>
      obtain ⟨s, hparse⟩ := htok
      have hgoc := getOrCreate_known env.now env.fresh hpid hlook
      cases hcs : createSlide (env.genOracle 0) { ctx with lastUsed := env.now } with
      | error e =>
          refine ⟨{ ctx with lastUsed := env.now }, ?_, ?_, ?_⟩
          · simp only [runOp, handleToolCall, dispatchInner_create_slide,
              Option.getD_some, handleCreateSlide, hparse, hgoc, hcs]
            rw [lookupCtx_setCtx, if_pos rfl]
          · simp only [runOp, handleToolCall, dispatchInner_create_slide,
              Option.getD_some, handleCreateSlide, hparse, hgoc, hcs]
            intro h
            exact absurd h (by simp [hasThemeOptions, errorResponse])
          · intro hoff
            constructor
            · simp only [runOp, handleToolCall, dispatchInner_create_slide,
                Option.getD_some, handleCreateSlide, hparse, hgoc, hcs]
              simp [hasThemeOptions, errorResponse]
            · exact hoff
      | ok pr =>
          obtain ⟨result, ctx1⟩ := pr
          obtain ⟨hg, hctx1⟩ := createSlide_inv hcs
          simp only at hctx1
          subst hctx1
          cases hcond : ((ctx.slideCount + 1 == 1) && !ctx.themeOffered
              && strFalsy ctx.themeId) with
          | true =>
              refine ⟨{ ctx with
                        slideCount := ctx.slideCount + 1,
                        lastUsed := env.now,
                        deckId := stepDeckOpt ctx.deckId result,
                        themeOffered := true }, ?_, ?_, ?_⟩
              · simp only [runOp, handleToolCall, dispatchInner_create_slide,
                  Option.getD_some, handleCreateSlide, hparse, hgoc, hcs,
                  deckExtractStep_eq]
                simp only [hcond, if_pos rfl]
                rw [lookupCtx_setCtx, if_pos rfl]
                simp
              · intro _
                rfl
              · intro hoff
                rw [hoff] at hcond
                simp at hcond
          | false =>
              refine ⟨{ ctx with
                        slideCount := ctx.slideCount + 1,
                        lastUsed := env.now,
                        deckId := stepDeckOpt ctx.deckId result }, ?_, ?_, ?_⟩
              · simp only [runOp, handleToolCall, dispatchInner_create_slide,
                  Option.getD_some, handleCreateSlide, hparse, hgoc, hcs,
                  deckExtractStep_eq]
                simp only [hcond, Bool.false_eq_true, if_neg (by simp : ¬False)]
                rw [lookupCtx_setCtx, if_pos rfl]
              · intro hopt
                exfalso
                revert hopt
                simp only [runOp, handleToolCall, dispatchInner_create_slide,
                  Option.getD_some, handleCreateSlide, hparse, hgoc, hcs,
                  deckExtractStep_eq]
                simp only [hcond]
                simp [hasThemeOptions, Json.getField, alookup_append, alookup]
              · intro hoff
                constructor
                · simp only [runOp, handleToolCall, dispatchInner_create_slide,
                    Option.getD_some, handleCreateSlide, hparse, hgoc, hcs,
                    deckExtractStep_eq]
                  simp only [hcond]
                  simp [hasThemeOptions, Json.getField, alookup_append, alookup]
                · exact hoff
  | batch env a =>
      obtain ⟨s, hparse⟩ := htok
      have hgoc := getOrCreate_known env.now env.fresh hpid hlook
      have hshape := carouselLoop_ctx_shape s env.genOracle { ctx with lastUsed := env.now }
      cases hloop : carouselLoop env.genOracle s { ctx with lastUsed := env.now } with
      | mk exc pr =>
          obtain ⟨ctxF, calls⟩ := pr
          rw [hloop] at hshape
          obtain ⟨n, od, hF, _⟩ := hshape
          simp only at hF
          subst hF
          cases exc with
          | error e =>
              have hresp : (runOp reg (SlideOp.batch env a)).1 = errorResponse e := by
                simp only [runOp, handleToolCall, dispatchInner_carousel,
                  Option.getD_some, handleCreateSlideCarousel, hparse, hgoc, hloop]
              refine ⟨{ { ctx with lastUsed := env.now } with
                        slideCount := n,
                        deckId := od }, ?_, ?_, ?_⟩
              · simp only [runOp, handleToolCall, dispatchInner_carousel,
                  Option.getD_some, handleCreateSlideCarousel, hparse, hgoc, hloop]
                rw [lookupCtx_setCtx, if_pos rfl]
              · intro h
                rw [hresp] at h
                exact absurd h (by simp [hasThemeOptions, errorResponse])
              · intro hoff
                refine ⟨?_, hoff⟩
                rw [hresp]
                simp [hasThemeOptions, errorResponse]
          | ok results =>
              cases hcond : (!ctx.themeOffered && strFalsy ctx.themeId) with
              | true =>
                  refine ⟨{ ctx with
                            lastUsed := env.now,
                            slideCount := n,
                            deckId := od,
                            themeOffered := true }, ?_, ?_, ?_⟩
                  · simp only [runOp, handleToolCall, dispatchInner_carousel,
                      Option.getD_some, handleCreateSlideCarousel, hparse, hgoc, hloop]
                    simp only [hcond, if_pos rfl]
                    rw [lookupCtx_setCtx, if_pos rfl]
                    simp
                  · intro _
                    rfl
                  · intro hoff
                    rw [hoff] at hcond
                    simp at hcond
              | false =>
                  refine ⟨{ ctx with
                            lastUsed := env.now,
                            slideCount := n,
                            deckId := od }, ?_, ?_, ?_⟩
                  · simp only [runOp, handleToolCall, dispatchInner_carousel,
                      Option.getD_some, handleCreateSlideCarousel, hparse, hgoc, hloop]
                    simp only [hcond, Bool.false_eq_true, if_neg (by simp : ¬False)]
                    rw [lookupCtx_setCtx, if_pos rfl]
                  · intro hopt
                    exfalso
                    revert hopt
                    simp only [runOp, handleToolCall, dispatchInner_carousel,
                      Option.getD_some, handleCreateSlideCarousel, hparse, hgoc, hloop]
                    simp only [hcond]
                    simp [hasThemeOptions, Json.getField, alookup_append, alookup]
                  · intro hoff
                    constructor
                    · simp only [runOp, handleToolCall, dispatchInner_carousel,
                        Option.getD_some, handleCreateSlideCarousel, hparse, hgoc, hloop]
                      simp only [hcond]
                      simp [hasThemeOptions, Json.getField, alookup_append, alookup]
                    · exact hoff

theorem countThemeOffers_cons (r : ToolResponse) (rs : List ToolResponse) :
    countThemeOffers (r :: rs) =
      (if hasThemeOptions r then 1 else 0) + countThemeOffers rs := by
  simp only [countThemeOffers, List.filter_cons]
  cases h : hasThemeOptions r <;> simp [h] <;> omega

theorem runOps_theme_le_one (ops : List SlideOp) :
    ∀ (reg : Registry) (ctx : PresentationContext) (pid : String),
      pid ≠ "" → lookupCtx reg pid = some ctx →
      (∀ op ∈ ops, opTargets pid op) →
      countThemeOffers (runOps reg ops) ≤ 1
      ∧ (ctx.themeOffered = true → countThemeOffers (runOps reg ops) = 0) := by
  induction ops with
  | nil =>
      intro reg ctx pid _ _ _
      exact ⟨by simp [runOps, countThemeOffers], fun _ => by
        simp [runOps, countThemeOffers]⟩
  | cons op rest ih =>
      intro reg ctx pid hpid hlook hall
      obtain ⟨ctx', h1, h2, h3⟩ :=
        runOp_theme_step hpid hlook op (hall op (List.mem_cons_self op rest))
      have hrest := ih (runOp reg op).2.1 ctx' pid hpid h1
        (fun o ho => hall o (List.mem_cons_of_mem op ho))
      have hunfold : runOps reg (op :: rest) =
          (runOp reg op).1 :: runOps (runOp reg op).2.1 rest := rfl
      cases hop : hasThemeOptions (runOp reg op).1 with
      | true =>
          have hoff' : ctx'.themeOffered = true := h2 hop
          have hzero := hrest.2 hoff'
          constructor
          · rw [hunfold, countThemeOffers_cons, hop, hzero]
            simp
          · intro hoff0
            have hfalse := (h3 hoff0).1
            rw [hop] at hfalse
            exact absurd hfalse (by simp)
      | false =>
          constructor
          · rw [hunfold, countThemeOffers_cons, hop]
            simpa using hrest.1
          · intro hoff0
            rw [hunfold, countThemeOffers_cons, hop]
            simpa using hrest.2 (h3 hoff0).2

/-- C5: a theme-options payload is attached to at most one response per
context. Per call it is attached exactly when the end-of-call
`slideCount` is 1 (for `create_slide`; no count condition for the
carousel), `themeOffered` was still false and `themeId` absent; the same
call flips `themeOffered` to true; with `themeOffered` already true
nothing is attached; and across any sequence of slide-creating calls
targeting one known context, at most one response carries the payload. -/
theorem theme_offered_once :
    (∀ (reg : Registry) (env : DispatchEnv) (rawArgs : Json) (pid? : Option String)
       (slideData : Slide) (result : GenerateResponse)
       (key : String) (ctx0 : PresentationContext) (reg1 : Registry),
       zSlideViewerInput rawArgs = .ok (pid?, slideData) →
       getOrCreatePresentation reg env.now env.fresh pid? = ((key, ctx0), reg1) →
       genParse (env.genOracle 0) = .ok result →
       hasThemeOptions (handleToolCall reg env "create_slide" (some rawArgs)).1
         = (ctx0.slideCount + 1 == 1 && !ctx0.themeOffered && strFalsy ctx0.themeId)
       ∧ (hasThemeOptions (handleToolCall reg env "create_slide" (some rawArgs)).1 = true →
           Option.map (fun c => c.themeOffered)
             (lookupCtx ((handleToolCall reg env "create_slide" (some rawArgs)).2.1) key)
             = some true)
       ∧ (ctx0.themeOffered = true →
           hasThemeOptions (handleToolCall reg env "create_slide" (some rawArgs)).1 = false))
  ∧ (∀ (reg : Registry) (env : DispatchEnv) (rawArgs : Json) (pid? : Option String)
       (slidesData : List Slide) (results : List GenerateResponse)
       (key : String) (ctx0 : PresentationContext) (reg1 : Registry),
       zSlideCarouselInput rawArgs = .ok (pid?, slidesData) →
       getOrCreatePresentation reg env.now env.fresh pid? = ((key, ctx0), reg1) →
       results.length = slidesData.length →
       OkFor env.genOracle results →
       hasThemeOptions (handleToolCall reg env "create_slide_carousel" (some rawArgs)).1
         = (!ctx0.themeOffered && strFalsy ctx0.themeId)
       ∧ (hasThemeOptions (handleToolCall reg env "create_slide_carousel" (some rawArgs)).1
            = true →
           Option.map (fun c => c.themeOffered)
             (lookupCtx ((handleToolCall reg env "create_slide_carousel"
               (some rawArgs)).2.1) key)
             = some true)
       ∧ (ctx0.themeOffered = true →
           hasThemeOptions (handleToolCall reg env "create_slide_carousel"
             (some rawArgs)).1 = false))
  ∧ (∀ (ops : List SlideOp) (reg : Registry) (ctx : PresentationContext) (pid : String),
       pid ≠ "" → lookupCtx reg pid = some ctx →
       (∀ op ∈ ops, opTargets pid op) →
       countThemeOffers (runOps reg ops) ≤ 1) := by
  refine ⟨?_, ?_, ?_⟩
  · intro reg env rawArgs pid? slideData result key ctx0 reg1 hparse hgoc hg
    have hcs : createSlide (env.genOracle 0) ctx0 =
        .ok (result, { ctx0 with slideCount := ctx0.slideCount + 1 }) := by
      simp [createSlide, hg]
    have hchar : hasThemeOptions (handleToolCall reg env "create_slide" (some rawArgs)).1
        = (ctx0.slideCount + 1 == 1 && !ctx0.themeOffered && strFalsy ctx0.themeId) := by
      cases hcond : (ctx0.slideCount + 1 == 1 && !ctx0.themeOffered
          && strFalsy ctx0.themeId) with
      | true =>
          simp only [handleToolCall, dispatchInner_create_slide, Option.getD_some,
            handleCreateSlide, hparse, hgoc, hcs, deckExtractStep_eq]
          simp only [hcond, if_pos rfl]
          simp [hasThemeOptions, Json.getField, alookup_append, alookup]
      | false =>
          simp only [handleToolCall, dispatchInner_create_slide, Option.getD_some,
            handleCreateSlide, hparse, hgoc, hcs, deckExtractStep_eq]
          simp only [hcond]
          simp [hasThemeOptions, Json.getField, alookup_append, alookup]
    refine ⟨hchar, ?_, ?_⟩
    · intro hopt
      rw [hchar] at hopt
      simp only [handleToolCall, dispatchInner_create_slide, Option.getD_some,
        handleCreateSlide, hparse, hgoc, hcs, deckExtractStep_eq]
      simp only [hopt, if_pos rfl]
      rw [lookupCtx_setCtx, if_pos rfl]
      simp
    · intro hoff
      rw [hchar, hoff]
      simp
  · intro reg env rawArgs pid? slidesData results key ctx0 reg1 hparse hgoc hlen hok
    have hloop := carouselLoop_ok slidesData env.genOracle ctx0 results hlen hok
    have hchar : hasThemeOptions
        (handleToolCall reg env "create_slide_carousel" (some rawArgs)).1
        = (!ctx0.themeOffered && strFalsy ctx0.themeId) := by
      cases hcond : (!ctx0.themeOffered && strFalsy ctx0.themeId) with
      | true =>
          simp only [handleToolCall, dispatchInner_carousel, Option.getD_some,
            handleCreateSlideCarousel, hparse, hgoc, hloop]
          simp only [hcond, if_pos rfl]
          simp [hasThemeOptions, Json.getField, alookup_append, alookup]
      | false =>
          simp only [handleToolCall, dispatchInner_carousel, Option.getD_some,
            handleCreateSlideCarousel, hparse, hgoc, hloop]
          simp only [hcond]
          simp [hasThemeOptions, Json.getField, alookup_append, alookup]
    refine ⟨hchar, ?_, ?_⟩
    · intro hopt
      rw [hchar] at hopt
      simp only [handleToolCall, dispatchInner_carousel, Option.getD_some,
        handleCreateSlideCarousel, hparse, hgoc, hloop]
      simp only [hopt, if_pos rfl]
      rw [lookupCtx_setCtx, if_pos rfl]
      simp
    · intro hoff
      rw [hchar, hoff]
      simp
  · intro ops reg ctx pid hpid hlook hall
    exact (runOps_theme_le_one ops reg ctx pid hpid hlook hall).1

/-- Arguments naming context `p2` for witness runs. -/
def argsP2 : Json :=
  Json.obj [("presentation_id", Json.str "p2"), ("slide_data", slideJsonA)]

/-- Witness for C5: context `p2` is fresh (`slideCount = 0`,
`themeOffered = false`); its first `create_slide` attaches theme
options, and a two-call run on `p2` attaches theme options at most
once. -/
theorem theme_offered_once_witness :
    hasThemeOptions (handleToolCall regAB envA "create_slide" (some argsP2)).1 = true
    ∧ countThemeOffers (runOps regAB
        [SlideOp.single envA (some argsP2), SlideOp.single envA (some argsP2)]) ≤ 1 := by
  constructor
  · rw [(theme_offered_once.1 regAB envA argsP2 (some "p2") slideA genRespA
      "p2" { ctxB with lastUsed := 1000 } (setCtx regAB "p2" { ctxB with lastUsed := 1000 })
      rfl (getOrCreate_known 1000 freshA (by decide) rfl) rfl).1]
    decide
  · exact theme_offered_once.2.2
      [SlideOp.single envA (some argsP2), SlideOp.single envA (some argsP2)]
      regAB ctxB "p2" (by decide) rfl
      (by
        intro op hop
        simp only [List.mem_cons, List.not_mem_nil, or_false] at hop
        rcases hop with h | h <;> subst h <;> exact ⟨slideA, rfl⟩)

end SlidesServer
